import Mathlib

/-
  Verification development for the Contiki-INGA FAT16/FAT32 driver
  (core/cfs/fat/fat.c).

  The driver is shallowly embedded: the device, the single 512-byte sector
  buffer and the file-handle pools become a `FatState` record, C functions
  become Lean functions on that record, machine integers become `Nat`/`Int`
  with explicit `% 2^w` where overflow matters, and the C `while` loops
  become fuel-indexed recursions.  Bytes are modelled as natural numbers
  (the device only ever stores values < 256, but no bound is baked into the
  type).  `diskio_read_block` is modelled as always succeeding;
  `diskio_write_block` may fail, controlled by the `devWriteOk` flag, which
  is what the C device driver's error return models.

  Items that live in headers that are not part of the sources at hand
  (cfs.h, fat.h: flag values, the `EOC` constant, the dir-entry layout and
  the pool size) are modelled from the specification and marked as such.
-/

/-- Write one byte into a byte-addressed map. -/
def setByte (f : Nat → Nat) (i v : Nat) : Nat → Nat := fun j => if j = i then v else f j

/-- C `toupper` restricted to ASCII, as used by `_make_valid_name`. -/
def toupper (c : Nat) : Nat := if 97 ≤ c ∧ c ≤ 122 then c - 32 else c

/-- Truncate an unsigned value to 32 bits (C `uint32_t` arithmetic). -/
def u32 (n : Nat) : Nat := n % 4294967296

/-- Convert a C signed 32-bit value (represented as an `Int`) to `uint32_t`. -/
def toUint32 (x : Int) : Nat := (x % 4294967296).toNat

/-- Convert an unsigned value to a C signed 32-bit value (two's complement). -/
def toInt32 (n : Nat) : Int :=
  if n % 4294967296 < 2147483648 then ((n % 4294967296 : Nat) : Int)
  else ((n % 4294967296 : Nat) : Int) - 4294967296

/-- Wrap an integer into the `int32_t` range (gcc two's-complement behaviour). -/
def wrap32i (x : Int) : Int := toInt32 (toUint32 x)

/-- C truncating `%` for the operand signs arising in the driver
(the divisor is always positive). -/
def cMod (a b : Int) : Int := if 0 ≤ a then a % b else -((-a) % b)

/-- C truncating `/` for the operand signs arising in the driver
(the divisor is always positive). -/
def cDiv (a b : Int) : Int := if 0 ≤ a then a / b else -((-a) / b)

/-- FAT type constants `FAT12` / `FAT16` / `FAT32` from the driver header. -/
inductive FatType where
  | fat12
  | fat16
  | fat32
  deriving DecidableEq

/-- The parsed BPB, `struct FAT_Info` of fat.c. -/
structure FAT_Info where
  BPB_BytesPerSec : Nat
  BPB_SecPerClus : Nat
  BPB_RsvdSecCnt : Nat
  BPB_NumFATs : Nat
  BPB_RootEntCnt : Nat
  BPB_TotSec : Nat
  BPB_Media : Nat
  BPB_FATSz : Nat
  BPB_RootClus : Nat
  type : FatType

/-- A 32-byte FAT short-name directory entry, `struct dir_entry`.
Field list modelled from the spec (§3, standard 8.3 layout); multi-byte
fields are stored as numbers and serialized little-endian. -/
structure dir_entry where
  DIR_Name : List Nat
  DIR_Attr : Nat
  DIR_NTRes : Nat
  CrtTimeTenth : Nat
  DIR_CrtTime : Nat
  DIR_CrtDate : Nat
  DIR_LstAccessDate : Nat
  DIR_FstClusHI : Nat
  DIR_WrtTime : Nat
  DIR_WrtDate : Nat
  DIR_FstClusLO : Nat
  DIR_FileSize : Nat

/-- Per-open-file state, `struct file` (fat_file_pool entries). -/
structure file where
  cluster : Nat
  dir_entry_sector : Nat
  dir_entry_offset : Nat
  nth_cluster : Nat
  n : Nat
  dir_entry : dir_entry

/-- Per-descriptor state, `struct file_desc` (fat_fd_pool entries).
`inUse` models `file != NULL`. -/
structure file_desc where
  offset : Int
  flags : Nat
  inUse : Bool

/-- The process-wide mutable state of the driver: the block device, the
single sector buffer with its address and dirty flag, the mounted volume
information, and the two handle pools.  `writeCount` and `fatWriteLog` are
pure instrumentation: they count `diskio_write_block` attempts and record
`write_fat_entry` calls, and no embedded operation reads them. -/
structure FatState where
  disk : Nat → Nat → Nat
  devWriteOk : Bool
  buffer : Nat → Nat
  bufferAddr : Nat
  bufferDirty : Bool
  info : FAT_Info
  firstDataSector : Nat
  writeCount : Nat
  fatWriteLog : List (Nat × Nat)
  filePool : Nat → file
  fdPool : Nat → file_desc

/-- Update one slot of a pool. -/
def poolSet {α : Type} (p : Nat → α) (i : Nat) (v : α) : Nat → α :=
  fun j => if j = i then v else p j

/-- Modelled from the spec: the end-of-clusterchain marker constant `EOC`
from fat.h (a FAT32-style all-ones low-28-bit marker, which `is_EOC`
recognises for both FAT types). -/
def EOC : Nat := 0x0FFFFFFF

/-- Modelled from the spec: `CFS_READ` flag bit from cfs.h. -/
def CFS_READ : Nat := 1

/-- Modelled from the spec: `CFS_WRITE` flag bit from cfs.h. -/
def CFS_WRITE : Nat := 2

/-- Modelled from the spec: `CFS_APPEND` flag bit from cfs.h. -/
def CFS_APPEND : Nat := 4

/-- Modelled from the spec: `CFS_SEEK_SET` whence value from cfs.h. -/
def CFS_SEEK_SET : Int := 0

/-- Modelled from the spec: `CFS_SEEK_CUR` whence value from cfs.h. -/
def CFS_SEEK_CUR : Int := 1

/-- Modelled from the spec: `CFS_SEEK_END` whence value from cfs.h. -/
def CFS_SEEK_END : Int := 2

/-- Modelled from the spec: the fixed size of the file-handle pool
(`FAT_FD_POOL_SIZE` from fat.h, "pool of fixed size"; the concrete value is
irrelevant to the claims, which quantify over valid descriptors). -/
def FAT_FD_POOL_SIZE : Nat := 5

def ATTR_READ_ONLY : Nat := 0x01
def ATTR_VOLUME_ID : Nat := 0x08
def ATTR_DIRECTORY : Nat := 0x10

/-- One attempted device write of the buffered sector; the disk changes only
when the device reports success.  Counts the attempt. -/
def diskio_write_block (s : FatState) (sector : Nat) (content : Nat → Nat) : FatState :=
  { s with
    writeCount := s.writeCount + 1,
    disk := if s.devWriteOk then
              (fun sec o => if sec = sector then content o else s.disk sec o)
            else s.disk }

/-- `fat_flush` of fat.c: if the buffer is dirty, write it at its address
(the device's error return is only printed, never propagated) and clear the
dirty flag. -/
def fat_flush (s : FatState) : FatState :=
  if s.bufferDirty then
    { diskio_write_block s s.bufferAddr s.buffer with bufferDirty := false }
  else s

/-- `fat_read_block` of fat.c: loading the resident sector (address ≠ 0) is a
no-op; otherwise flush, then read the sector into the buffer.  Device reads
are modelled as always succeeding, so the returned status is 0. -/
def fat_read_block (s : FatState) (sector_addr : Nat) : FatState × Nat :=
  if s.bufferAddr = sector_addr ∧ sector_addr ≠ 0 then (s, 0)
  else
    let s1 := fat_flush s
    ({ s1 with bufferAddr := sector_addr, buffer := fun o => s1.disk sector_addr o }, 0)

/-- The byte a subsequent read of sector `sec` would observe: the buffer if
that sector is resident, the disk otherwise. -/
def byteAt (s : FatState) (sec off : Nat) : Nat :=
  if s.bufferAddr = sec then s.buffer off else s.disk sec off

/-- Well-formedness used throughout: the device accepts writes, and a clean
buffer agrees with the disk copy of its sector. -/
def Flushable (s : FatState) : Prop :=
  s.devWriteOk = true ∧ (s.bufferDirty = false → ∀ off, s.buffer off = s.disk s.bufferAddr off)

/-- `is_EOC` of fat.c. -/
def is_EOC (t : FatType) (fat_entry : Nat) : Bool :=
  match t with
  | FatType.fat16 => decide (0xFFF8 ≤ fat_entry)
  | FatType.fat32 => decide (0x0FFFFFF8 ≤ (fat_entry &&& 0x0FFFFFFF))
  | FatType.fat12 => false

/-- `calc_fat_block` of fat.c: FAT sector number and byte offset of the FAT
entry for a cluster (uint32 arithmetic). -/
def calc_fat_block (info : FAT_Info) (cur_cluster : Nat) : Nat × Nat :=
  let e0 : Nat := match info.type with
    | FatType.fat16 => u32 (cur_cluster * 2)
    | FatType.fat32 => u32 (cur_cluster * 4)
    | FatType.fat12 => 0
  (u32 (info.BPB_RsvdSecCnt + e0 / info.BPB_BytesPerSec), e0 % info.BPB_BytesPerSec)

/-- `read_fat_entry` of fat.c: load the FAT sector holding the entry and
decode it little-endian; FAT32 masks the result to the low 28 bits. -/
def read_fat_entry (s : FatState) (cluster_num : Nat) : FatState × Nat :=
  let fo := calc_fat_block s.info cluster_num
  let s1 := (fat_read_block s fo.1).1
  match s.info.type with
  | FatType.fat16 => (s1, ((s1.buffer (fo.2 + 1)) <<< 8) + s1.buffer fo.2)
  | FatType.fat32 =>
      (s1, (((s1.buffer (fo.2 + 3)) <<< 24) + ((s1.buffer (fo.2 + 2)) <<< 16) +
            ((s1.buffer (fo.2 + 1)) <<< 8) + s1.buffer fo.2) &&& 0x0FFFFFFF)
  | FatType.fat12 => (s1, EOC)

/-- `write_fat_entry` of fat.c: load the FAT sector, store the value
little-endian into the buffer and mark it dirty.  The FAT32 high byte is the
verbatim translation of
`((uint8_t)(value >> 24) & 0x0FFF) + (0xF000 & sector_buffer[ent_offset+3])`
stored into a `uint8_t`. -/
def write_fat_entry (s : FatState) (cluster_num value : Nat) : FatState :=
  let fo := calc_fat_block s.info cluster_num
  let s1 := (fat_read_block s fo.1).1
  let buf2 : Nat → Nat :=
    match s.info.type with
    | FatType.fat16 =>
        setByte (setByte s1.buffer (fo.2 + 1) ((value >>> 8) % 256)) fo.2 (value % 256)
    | FatType.fat32 =>
        setByte (setByte (setByte (setByte s1.buffer
          (fo.2 + 3) (((((value >>> 24) % 256) &&& 0x0FFF) + (0xF000 &&& s1.buffer (fo.2 + 3))) % 256))
          (fo.2 + 2) ((value >>> 16) % 256))
          (fo.2 + 1) ((value >>> 8) % 256))
          fo.2 (value % 256)
    | FatType.fat12 => s1.buffer
  { s1 with
    buffer := buf2,
    bufferDirty := true,
    fatWriteLog := s1.fatWriteLog ++ [(cluster_num, value)] }

/-- The FAT entry of a cluster as observed through `byteAt` (the value a
`read_fat_entry` would return, without performing the load). -/
def entryVal (s : FatState) (cluster_num : Nat) : Nat :=
  let fo := calc_fat_block s.info cluster_num
  match s.info.type with
  | FatType.fat16 => ((byteAt s fo.1 (fo.2 + 1)) <<< 8) + byteAt s fo.1 fo.2
  | FatType.fat32 =>
      (((byteAt s fo.1 (fo.2 + 3)) <<< 24) + ((byteAt s fo.1 (fo.2 + 2)) <<< 16) +
       ((byteAt s fo.1 (fo.2 + 1)) <<< 8) + byteAt s fo.1 fo.2) &&& 0x0FFFFFFF
  | FatType.fat12 => EOC

/-- `find_nth_cluster` of fat.c: follow `read_fat_entry` n times. -/
def find_nth_cluster (s : FatState) (start_cluster : Nat) : Nat → FatState × Nat
  | 0 => (s, start_cluster)
  | n + 1 =>
      let r := read_fat_entry s start_cluster
      find_nth_cluster r.1 r.2 n

/-- The `CLUSTER_TO_SECTOR` macro of fat.c (uint32 arithmetic). -/
def cluster_to_sector (s : FatState) (cluster_num : Nat) : Nat :=
  u32 (((cluster_num + 4294967296 - 2) % 4294967296) * s.info.BPB_SecPerClus + s.firstDataSector)

/-- Loop body of `is_a_power_of_2`: test = 1 shifted left up to 32 times
(uint32), compared against the value before each shift. -/
def pow2Loop : Nat → Nat → Nat → Nat
  | 0, _, _ => 1
  | k + 1, test, value => if test = value then 0 else pow2Loop k (u32 (test * 2)) value

/-- `is_a_power_of_2` of fat.c: returns 0 ("is a power of 2") for value 0
and for every 2^i with i < 32, and 1 otherwise. -/
def is_a_power_of_2 (value : Nat) : Nat :=
  if value = 0 then 0 else pow2Loop 32 1 value

/-- `determine_fat_type` of fat.c.  `RootDirSectors` is a uint16, the data
sector count is uint32 arithmetic (wrapping subtraction). -/
def determine_fat_type (info : FAT_Info) : FatType :=
  let RootDirSectors : Nat :=
    (((info.BPB_RootEntCnt * 32) + (info.BPB_BytesPerSec - 1)) / info.BPB_BytesPerSec) % 65536
  let DataSec : Nat :=
    (info.BPB_TotSec + 4294967296 -
      (info.BPB_RsvdSecCnt + (info.BPB_NumFATs * info.BPB_FATSz) + RootDirSectors) % 4294967296) % 4294967296
  let CountofClusters : Nat := DataSec / info.BPB_SecPerClus
  if CountofClusters < 4085 then FatType.fat12
  else if CountofClusters < 65525 then FatType.fat16
  else FatType.fat32

/-- `parse_bootsector` of fat.c: decode the BPB fields little-endian from
sector 0 and accumulate the validation error flags. -/
def parse_bootsector (b : Nat → Nat) : FAT_Info × Nat :=
  let bytesPerSec := ((b 12) <<< 8) + b 11
  let secPerClus := b 13
  let rsvdSecCnt := b 14 + ((b 15) <<< 8)
  let numFATs := b 16
  let rootEntCnt := b 17 + ((b 18) <<< 8)
  let totSec16 := b 19 + ((b 20) <<< 8)
  let totSec := if totSec16 = 0 then
      b 32 + ((b 33) <<< 8) + ((b 34) <<< 16) + ((b 35) <<< 24)
    else totSec16
  let media := b 21
  let fatSz16 := b 22 + ((b 23) <<< 8)
  let fatSz := if fatSz16 = 0 then
      b 36 + ((b 37) <<< 8) + ((b 38) <<< 16) + ((b 39) <<< 24)
    else fatSz16
  let rootClus := b 44 + ((b 45) <<< 8) + ((b 46) <<< 16) + ((b 47) <<< 24)
  let ret :=
    (if is_a_power_of_2 bytesPerSec ≠ 0 then 1 else 0) +
    (if is_a_power_of_2 secPerClus ≠ 0 then 2 else 0) +
    (if bytesPerSec * secPerClus > 32768 then 4 else 0) +
    (if numFATs > 2 then 8 else 0) +
    (if totSec = 0 then 16 else 0) +
    (if fatSz = 0 then 32 else 0) +
    (if b 510 ≠ 0x55 ∨ b 511 ≠ 0xAA then 64 else 0)
  ({ BPB_BytesPerSec := bytesPerSec
     BPB_SecPerClus := secPerClus
     BPB_RsvdSecCnt := rsvdSecCnt
     BPB_NumFATs := numFATs
     BPB_RootEntCnt := rootEntCnt
     BPB_TotSec := totSec
     BPB_Media := media
     BPB_FATSz := fatSz
     BPB_RootClus := rootClus
     type := FatType.fat12 }, ret)

/-- `fat_mount_device` of fat.c, restricted to its decision logic: parse the
boot sector (read from sector 0 of the device), return 1 on any BPB error
flag, classify the FAT type, return 2 when it is neither FAT16 nor FAT32,
else return 0.  The second component is the installed volume info. -/
def fat_mount_device (b : Nat → Nat) : Nat × FAT_Info :=
  let pr := parse_bootsector b
  if pr.2 ≠ 0 then (1, pr.1)
  else
    let info := { pr.1 with type := determine_fat_type pr.1 }
    if info.type ≠ FatType.fat16 ∧ info.type ≠ FatType.fat32 then (2, info)
    else (0, info)

/-- Loop of `_make_valid_name` of fat.c: `rem` counts the remaining
iterations of `for (i = 0, idx = 0; i < end - start; ++i, ++idx)`; on a
first `.` the write index jumps to 7 and the `continue`-path increment makes
it 8. -/
def mvnLoop (path : List Nat) (start : Nat) :
    Nat → Nat → Nat → Bool → List Nat → Nat × List Nat
  | 0, _, _, _, name => (0, name)
  | rem + 1, i, idx, dot_found, name =>
    if 11 ≤ idx then (2, name)
    else if path.getD (start + i) 0 = 46 then
      (if dot_found then (3, name)
       else mvnLoop path start rem (i + 1) 8 true name)
    else if ¬dot_found ∧ 7 < idx then (4, name)
    else mvnLoop path start rem (i + 1) (idx + 1) dot_found
           (name.set idx (toupper (path.getD (start + i) 0)))

/-- `_make_valid_name` of fat.c: canonicalize `path[start..end)` into an
11-byte space-padded uppercase 8.3 name; returns the error code and the
name. -/
def make_valid_name (path : List Nat) (start endI : Nat) : Nat × List Nat :=
  mvnLoop path start (endI - start) 0 0 false (List.replicate 11 32)


/-- Byte `k` of the on-disk serialization of a `dir_entry` (little-endian
8.3 layout; modelled from the spec §3 since fat.h is not among the sources). -/
def dirEntryByte (e : dir_entry) (k : Nat) : Nat :=
  if k < 11 then e.DIR_Name.getD k 32
  else if k = 11 then e.DIR_Attr % 256
  else if k = 12 then e.DIR_NTRes % 256
  else if k = 13 then e.CrtTimeTenth % 256
  else if k = 14 then e.DIR_CrtTime % 256
  else if k = 15 then (e.DIR_CrtTime >>> 8) % 256
  else if k = 16 then e.DIR_CrtDate % 256
  else if k = 17 then (e.DIR_CrtDate >>> 8) % 256
  else if k = 18 then e.DIR_LstAccessDate % 256
  else if k = 19 then (e.DIR_LstAccessDate >>> 8) % 256
  else if k = 20 then e.DIR_FstClusHI % 256
  else if k = 21 then (e.DIR_FstClusHI >>> 8) % 256
  else if k = 22 then e.DIR_WrtTime % 256
  else if k = 23 then (e.DIR_WrtTime >>> 8) % 256
  else if k = 24 then e.DIR_WrtDate % 256
  else if k = 25 then (e.DIR_WrtDate >>> 8) % 256
  else if k = 26 then e.DIR_FstClusLO % 256
  else if k = 27 then (e.DIR_FstClusLO >>> 8) % 256
  else if k = 28 then e.DIR_FileSize % 256
  else if k = 29 then (e.DIR_FileSize >>> 8) % 256
  else if k = 30 then (e.DIR_FileSize >>> 16) % 256
  else if k = 31 then (e.DIR_FileSize >>> 24) % 256
  else 0

/-- Decode a 32-byte directory entry starting at byte `base` of a byte map
(the `memcpy` into a `struct dir_entry` in fat.c). -/
def parseDirEntry (b : Nat → Nat) (base : Nat) : dir_entry :=
  { DIR_Name := (List.range 11).map (fun k => b (base + k))
    DIR_Attr := b (base + 11)
    DIR_NTRes := b (base + 12)
    CrtTimeTenth := b (base + 13)
    DIR_CrtTime := b (base + 14) + ((b (base + 15)) <<< 8)
    DIR_CrtDate := b (base + 16) + ((b (base + 17)) <<< 8)
    DIR_LstAccessDate := b (base + 18) + ((b (base + 19)) <<< 8)
    DIR_FstClusHI := b (base + 20) + ((b (base + 21)) <<< 8)
    DIR_WrtTime := b (base + 22) + ((b (base + 23)) <<< 8)
    DIR_WrtDate := b (base + 24) + ((b (base + 25)) <<< 8)
    DIR_FstClusLO := b (base + 26) + ((b (base + 27)) <<< 8)
    DIR_FileSize := b (base + 28) + ((b (base + 29)) <<< 8) +
      ((b (base + 30)) <<< 16) + ((b (base + 31)) <<< 24) }

/-- `make_readable_entry` of fat.c: strip pad spaces from the 11-byte name
and insert a `.` after position 7. -/
def make_readable_entry (nm : List Nat) : List Nat :=
  (List.range 11).foldl (fun acc i =>
    let acc1 := if nm.getD i 32 ≠ 32 then acc ++ [nm.getD i 32] else acc
    if i = 7 then acc1 ++ [46] else acc1) []

/-- The first cluster stored in a directory entry,
`(((uint32_t) DIR_FstClusHI) << 16) + DIR_FstClusLO`. -/
def firstClusterOf (de : dir_entry) : Nat := u32 ((de.DIR_FstClusHI <<< 16) + de.DIR_FstClusLO)

/-- The `while` loop of `reset_cluster_chain` of fat.c, fuel-indexed.  At
entry `cluster` is the cluster under consideration and `next_cluster` the
FAT value already read for it; the loop writes 0 while the cluster number is
neither EOC nor reserved, then performs one final `write_fat_entry` on the
value that terminated the walk. -/
def resetChainLoop : Nat → FatState → Nat → Nat → FatState
  | 0, s, _, _ => s
  | fuel + 1, s, cluster, next_cluster =>
    if is_EOC s.info.type cluster = false ∧ 2 ≤ cluster then
      let s1 := write_fat_entry s cluster 0
      let r := read_fat_entry s1 next_cluster
      resetChainLoop fuel r.1 next_cluster r.2
    else
      write_fat_entry s cluster 0

/-- `reset_cluster_chain` of fat.c. -/
def reset_cluster_chain (fuel : Nat) (s : FatState) (de : dir_entry) : FatState :=
  let cluster := firstClusterOf de
  let r := read_fat_entry s cluster
  resetChainLoop fuel r.1 cluster r.2

/-- `remove_dir_entry` of fat.c: load the sector, zero the 32-byte entry,
set its first byte to 0xE5, mark the buffer dirty. -/
def remove_dir_entry (s : FatState) (dir_entry_sector dir_entry_offset : Nat) : FatState :=
  let r := fat_read_block s dir_entry_sector
  let buf1 : Nat → Nat :=
    fun o => if dir_entry_offset ≤ o ∧ o < dir_entry_offset + 32 then 0 else r.1.buffer o
  let buf2 := setByte buf1 dir_entry_offset 0xE5
  { r.1 with buffer := buf2, bufferDirty := true }

/-- `_is_file` of fat.c. -/
def is_file_entry (de : dir_entry) : Nat :=
  if de.DIR_Attr &&& ATTR_DIRECTORY ≠ 0 then 0
  else if de.DIR_Attr &&& ATTR_VOLUME_ID ≠ 0 then 0
  else 1

/-- `_cfs_flags_ok` of fat.c. -/
def cfs_flags_ok (flags : Nat) (de : dir_entry) : Nat :=
  if ((flags &&& CFS_APPEND ≠ 0) ∨ (flags &&& CFS_WRITE ≠ 0)) ∧ (de.DIR_Attr &&& ATTR_READ_ONLY ≠ 0)
  then 0 else 1

/-- `cfs_remove` of fat.c after a successful `get_dir_entry` resolution:
the path lookup machinery is abstracted into its result (`de`, the entry's
sector and offset); the embedded part is lines 896-903 of fat.c. -/
def cfs_remove_resolved (fuel : Nat) (s : FatState) (de : dir_entry)
    (dir_entry_sector dir_entry_offset : Nat) : FatState × Int :=
  if is_file_entry de = 1 then
    let s1 := reset_cluster_chain fuel s de
    let s2 := remove_dir_entry s1 dir_entry_sector dir_entry_offset
    let s3 := fat_flush s2
    (s3, 0)
  else (s, -1)

/-- Scan loop of `_get_free_cluster_16`: big-endian-decoded 16-bit entries at
byte offsets 0,2,…,510; returns the byte offset of the first zero entry, or
512. -/
def gfcLoop16 (buf : Nat → Nat) : Nat → Nat → Nat
  | 0, _ => 512
  | k + 1, i => if ((buf i) <<< 8) + buf (i + 1) = 0 then i else gfcLoop16 buf k (i + 2)

/-- `_get_free_cluster_16` of fat.c. -/
def get_free_cluster_16 (buf : Nat → Nat) : Nat := gfcLoop16 buf 256 0

/-- Scan loop of `_get_free_cluster_32`: little-endian 32-bit entries masked
to 28 bits at byte offsets 0,4,…,508; returns the byte offset of the first
zero entry, or 512. -/
def gfcLoop32 (buf : Nat → Nat) : Nat → Nat → Nat
  | 0, _ => 512
  | k + 1, i =>
      if (((buf (i + 3)) <<< 24) + ((buf (i + 2)) <<< 16) + ((buf (i + 1)) <<< 8) + buf i)
         &&& 0x0FFFFFFF = 0
      then i else gfcLoop32 buf k (i + 4)

/-- `_get_free_cluster_32` of fat.c. -/
def get_free_cluster_32 (buf : Nat → Nat) : Nat := gfcLoop32 buf 128 0

/-- The `do … while (i == 512)` loop of `get_free_cluster`, fuel-indexed
(the C loop has no termination condition on a full FAT, spec §9.1; on fuel
exhaustion the embedded loop stops with i = 512).  Returns the state, the
post-increment FAT sector number and the found byte offset. -/
def gfcOuter : Nat → FatState → Nat → FatState × Nat × Nat
  | 0, s, fat_sec_num => (s, fat_sec_num, 512)
  | fuel + 1, s, fat_sec_num =>
    let r := fat_read_block s fat_sec_num
    let i : Nat := match r.1.info.type with
      | FatType.fat16 => get_free_cluster_16 r.1.buffer
      | FatType.fat32 => get_free_cluster_32 r.1.buffer
      | FatType.fat12 => 0
    if i = 512 then gfcOuter fuel r.1 (fat_sec_num + 1)
    else (r.1, fat_sec_num + 1, i)

/-- `get_free_cluster` of fat.c. -/
def get_free_cluster (fuel : Nat) (s : FatState) (start_cluster : Nat) : FatState × Nat :=
  let fo := calc_fat_block s.info start_cluster
  let r := gfcOuter fuel s fo.1
  let s1 := r.1
  let ent0 := u32 ((r.2.1 - 1 - s1.info.BPB_RsvdSecCnt) * s1.info.BPB_BytesPerSec + r.2.2)
  let ent1 : Nat := match s1.info.type with
    | FatType.fat16 => ent0 / 2
    | FatType.fat32 => ent0 / 4
    | FatType.fat12 => ent0
  (s1, ent1)

/-- `update_dir_entry` of fat.c: load the sector holding the handle's
directory entry and overwrite the 32 bytes at its offset with the cached
entry; mark dirty. -/
def update_dir_entry (s : FatState) (fd : Nat) : FatState :=
  let f := s.filePool fd
  let r := fat_read_block s f.dir_entry_sector
  let buf : Nat → Nat :=
    fun o => if f.dir_entry_offset ≤ o ∧ o < f.dir_entry_offset + 32
             then dirEntryByte f.dir_entry (o - f.dir_entry_offset)
             else r.1.buffer o
  { r.1 with buffer := buf, bufferDirty := true }

/-- The EOC-search loop of `add_cluster_to_file` (non-empty case):
`while (!is_EOC(n)) { cluster = n; n = read_fat_entry(cluster); fd.n++; }`.
Returns the state and the final `cluster` variable. -/
def acfLoop : Nat → FatState → Nat → Nat → Nat → FatState × Nat
  | 0, s, _, cluster, _ => (s, cluster)
  | fuel + 1, s, fd, cluster, n =>
    if is_EOC s.info.type n then (s, cluster)
    else
      let r := read_fat_entry s n
      let fUp := { r.1.filePool fd with n := u32 ((r.1.filePool fd).n + 1) }
      let s2 := { r.1 with filePool := poolSet r.1.filePool fd fUp }
      acfLoop fuel s2 fd n r.2

/-- `add_cluster_to_file` of fat.c: allocate a free cluster; for an empty
file make it the first cluster (persisting the directory entry), otherwise
append it at the end of the chain. -/
def add_cluster_to_file (gfuel lfuel : Nat) (s : FatState) (fd : Nat) : FatState :=
  let g := get_free_cluster gfuel s 0
  let s1 := g.1
  let free_cluster := g.2
  let f := s1.filePool fd
  if f.cluster = 0 then
    let s2 := write_fat_entry s1 free_cluster EOC
    let f2 := s2.filePool fd
    let de2 := { f2.dir_entry with
                   DIR_FstClusHI := (free_cluster >>> 16) % 65536,
                   DIR_FstClusLO := free_cluster % 65536 }
    let s3 := { s2 with filePool := poolSet s2.filePool fd ({ f2 with dir_entry := de2 }) }
    let s4 := update_dir_entry s3 fd
    let f4 := { s4.filePool fd with cluster := free_cluster, n := 0, nth_cluster := free_cluster }
    { s4 with filePool := poolSet s4.filePool fd f4 }
  else
    let l := acfLoop lfuel s1 fd f.nth_cluster f.nth_cluster
    let s5 := write_fat_entry l.1 l.2 free_cluster
    let s6 := write_fat_entry s5 free_cluster EOC
    let f6 := { s6.filePool fd with nth_cluster := free_cluster }
    { s6 with filePool := poolSet s6.filePool fd f6 }

/-- `load_next_sector_of_file` of fat.c: reuse the per-handle cluster hint,
take one FAT step, or re-walk the chain; on a zero or EOC cluster extend the
file when writing, otherwise report end-of-file (1). -/
def load_next_sector_of_file (gfuel lfuel : Nat) (s : FatState) (fd : Nat)
    (clusters : Nat) (clus_offset : Nat) (write : Bool) : FatState × Nat :=
  let f := s.filePool fd
  let rc : FatState × Nat :=
    if clusters = f.n then (s, f.nth_cluster)
    else if clusters = u32 (f.n + 1) then read_fat_entry s f.nth_cluster
    else find_nth_cluster s f.cluster clusters
  let s1 := rc.1
  let cluster := rc.2
  if cluster = 0 ∨ is_EOC s1.info.type cluster then
    if write then
      let s2 := add_cluster_to_file gfuel lfuel s1 fd
      let cl := (s2.filePool fd).nth_cluster
      fat_read_block s2 (u32 (cluster_to_sector s2 cl + clus_offset))
    else (s1, 1)
  else
    let fUp := { s1.filePool fd with nth_cluster := cluster, n := clusters }
    let s2 := { s1 with filePool := poolSet s1.filePool fd fUp }
    fat_read_block s2 (u32 (cluster_to_sector s2 cluster + clus_offset))

/-- The `while (load_next_sector_of_file(…) == 0)` loop of `cfs_read` of
fat.c.  `offset` is the (never reset) local byte offset within a sector,
`out` accumulates the bytes copied to the caller (`j = out.length`).  One
outer iteration copies `sector_buffer[i]` for `i = offset` while
`i < 512 ∧ j < len`, advances the descriptor's byte cursor accordingly,
then advances `clus_offset`/`clusters`. -/
def cfs_read_loop (gfuel lfuel : Nat) :
    Nat → FatState → Nat → Nat → Nat → Nat → Nat → List Nat → FatState × List Nat
  | 0, s, _, _, _, _, _, out => (s, out)
  | fuel + 1, s, fd, len, offset, clusters, clus_offset, out =>
    let r := load_next_sector_of_file gfuel lfuel s fd clusters clus_offset false
    if r.2 = 0 then
      let s1 := r.1
      let copied := min (512 - offset) (len - out.length)
      let out2 := out ++ (List.range copied).map (fun k => s1.buffer (offset + k))
      let dUp := { s1.fdPool fd with offset := wrap32i ((s1.fdPool fd).offset + copied) }
      let s2 := { s1 with fdPool := poolSet s1.fdPool fd dUp }
      let next : Nat × Nat :=
        if (clus_offset + 1) % s2.info.BPB_SecPerClus = 0 then (clusters + 1, 0)
        else (clusters, clus_offset + 1)
      if len ≤ out2.length then (s2, out2)
      else cfs_read_loop gfuel lfuel fuel s2 fd len offset next.1 next.2 out2
    else (r.1, out)

/-- `cfs_read` of fat.c.  Returns the final state, the C return value and
the list of bytes transferred to the caller's buffer. -/
def cfs_read (gfuel lfuel rfuel : Nat) (s : FatState) (fd : Int) (len : Nat) :
    FatState × Int × List Nat :=
  let fdn := fd.toNat
  let o := (s.fdPool fdn).offset
  let offset := toUint32 (cMod o (s.info.BPB_BytesPerSec : Int))
  let clusters := toUint32 (cDiv (cDiv o (s.info.BPB_BytesPerSec : Int))
                    (s.info.BPB_SecPerClus : Int))
  let clus_offset := (toUint32 (cMod (cDiv o (s.info.BPB_BytesPerSec : Int))
                    (s.info.BPB_SecPerClus : Int))) % 256
  if fd < 0 ∨ (FAT_FD_POOL_SIZE : Int) ≤ fd then (s, -1, [])
  else if (s.filePool fdn).cluster = 0 then (s, 0, [])
  else if (s.fdPool fdn).flags &&& CFS_READ = 0 then (s, -1, [])
  else
    let r := cfs_read_loop gfuel lfuel rfuel s fdn len offset clusters clus_offset []
    (r.1, (r.2.length : Int), r.2)

/-- `cfs_seek` of fat.c.  `cfs_offset_t` is modelled as a signed 32-bit
integer and `DIR_FileSize` as `uint32_t`; the comparison against the file
size converts the signed cursor to unsigned, exactly as C's usual arithmetic
conversions do. -/
def cfs_seek (s : FatState) (fd offset whence : Int) : FatState × Int :=
  if fd < 0 ∨ (FAT_FD_POOL_SIZE : Int) ≤ fd then (s, -1)
  else
    let fdn := fd.toNat
    let fsize := u32 (s.filePool fdn).dir_entry.DIR_FileSize
    let o0 := (s.fdPool fdn).offset
    let o1 := if whence = CFS_SEEK_SET then wrap32i offset
              else if whence = CFS_SEEK_CUR then wrap32i (o0 + offset)
              else if whence = CFS_SEEK_END then
                toInt32 ((((fsize + 4294967296 - 1) % 4294967296) + toUint32 offset) % 4294967296)
              else o0
    let o2 := if fsize ≤ toUint32 o1 then toInt32 ((fsize + 4294967296 - 1) % 4294967296) else o1
    let o3 := if o2 < 0 then 0 else o2
    let dUp := { s.fdPool fdn with offset := o3 }
    ({ s with fdPool := poolSet s.fdPool fdn dUp }, o3)

/-- `cfs_readdir` of fat.c: the directory handle's cached entry `de` and the
process-global cursor are passed explicitly.  Returns the final state, the
C return value, the incremented cursor, the readable name and the size. -/
def cfs_readdir (s : FatState) (de : dir_entry) (cursor : Nat) :
    FatState × Int × Nat × List Nat × Nat :=
  let dir_off := u32 (cursor * 32)
  let cluster_num := (dir_off / s.info.BPB_SecPerClus) % 65536
  let r := find_nth_cluster s (firstClusterOf de) cluster_num
  if r.2 = 0 then (r.1, -1, cursor, [], 0)
  else
    let rb := fat_read_block r.1 (u32 (cluster_to_sector r.1 r.2 + dir_off / s.info.BPB_BytesPerSec))
    let entry := parseDirEntry rb.1.buffer (dir_off % s.info.BPB_BytesPerSec)
    (rb.1, 0, (cursor + 1) % 65536, make_readable_entry entry.DIR_Name, entry.DIR_FileSize)

/-- Modelled from the spec: the cluster index `readdir` is documented to use,
`cursor*32 / (sec_per_clus*512)` (§4.I). -/
def readdir_cluster_index_spec (cursor sec_per_clus : Nat) : Nat :=
  (cursor * 32) / (sec_per_clus * 512)

/-- Modelled from the spec: the high byte a FAT32 entry write should produce,
keeping the upper 4 bits of the on-disk word and taking bits 24..27 of the
value ("FAT32 preserves the upper 4 bits of the word"). -/
def fat32_high_byte_spec (old value : Nat) : Nat :=
  ((value >>> 24) &&& 0x0F) + (old &&& 0xF0)

/-- Modelled from the spec: the claimed clamp of the seek result "into
[0, file_size - 1]". -/
def seek_clamp_spec (fsize : Nat) (x : Int) : Int :=
  max 0 (min ((fsize : Int) - 1) x)

/-- Modelled from the spec: the whence-computed seek target, "SET assigns,
CUR adds, END computes (file_size - 1) + offset" (exact integer arithmetic,
for comparison with the embedded `cfs_seek`). -/
def seek_target_spec (fsize : Nat) (cur offset whence : Int) : Int :=
  if whence = CFS_SEEK_SET then offset
  else if whence = CFS_SEEK_CUR then cur + offset
  else if whence = CFS_SEEK_END then (fsize : Int) - 1 + offset
  else cur

/-- Size in bytes of a FAT entry for each FAT type. -/
def entSize (t : FatType) : Nat :=
  match t with
  | FatType.fat16 => 2
  | FatType.fat32 => 4
  | FatType.fat12 => 0

/-- FAT sector holding the entry of a cluster. -/
def entSec (info : FAT_Info) (c : Nat) : Nat := (calc_fat_block info c).1

/-- Byte offset of a cluster's entry inside its FAT sector. -/
def entOff (info : FAT_Info) (c : Nat) : Nat := (calc_fat_block info c).2

/-- Geometry assumptions for FAT-entry reasoning: standard 512-byte sectors,
a mounted FAT16/FAT32 volume, and a reserved-sector count small enough that
the FAT sector computation cannot wrap. -/
abbrev GoodGeom (info : FAT_Info) : Prop :=
  info.BPB_BytesPerSec = 512 ∧
  (info.type = FatType.fat16 ∨ info.type = FatType.fat32) ∧
  info.BPB_RsvdSecCnt < 2147483648

/-- Byte (sec, off) lies outside the FAT entry of cluster `x`. -/
abbrev outsideEntry (info : FAT_Info) (x sec off : Nat) : Prop :=
  sec ≠ entSec info x ∨ off < entOff info x ∨ entOff info x + entSize info.type ≤ off

/-- The FAT of state `s` links the listed clusters in order and terminates
the last one with value `m`. -/
def Links (s : FatState) : List Nat → Nat → Prop
  | [], _ => True
  | [c], m => entryVal s c = m
  | c :: c2 :: rest, m => entryVal s c = c2 ∧ Links s (c2 :: rest) m

/-- A cluster number that the `reset_cluster_chain` walk treats as part of
the chain: at least 2, not an EOC value, and small enough (< 2^28) that its
FAT-entry address arithmetic cannot wrap. -/
abbrev okChainCluster (t : FatType) (c : Nat) : Prop :=
  2 ≤ c ∧ is_EOC t c = false ∧ c < 268435456

/-- A default (all-zero) directory entry, used by the concrete test states. -/
def emptyEntry : dir_entry :=
  { DIR_Name := List.replicate 11 32, DIR_Attr := 0, DIR_NTRes := 0, CrtTimeTenth := 0,
    DIR_CrtTime := 0, DIR_CrtDate := 0, DIR_LstAccessDate := 0, DIR_FstClusHI := 0,
    DIR_WrtTime := 0, DIR_WrtDate := 0, DIR_FstClusLO := 0, DIR_FileSize := 0 }

/-- A default pool slot. -/
def emptyFile : file :=
  { cluster := 0, dir_entry_sector := 0, dir_entry_offset := 0, nth_cluster := 0, n := 0,
    dir_entry := emptyEntry }

/-- A default descriptor slot. -/
def emptyFd : file_desc := { offset := 0, flags := 0, inUse := false }

/-- Volume info for the concrete test states. -/
def mkInfo (t : FatType) (spc rsvd : Nat) : FAT_Info :=
  { BPB_BytesPerSec := 512, BPB_SecPerClus := spc, BPB_RsvdSecCnt := rsvd, BPB_NumFATs := 2,
    BPB_RootEntCnt := 0, BPB_TotSec := 100000, BPB_Media := 0xF8, BPB_FATSz := 256,
    BPB_RootClus := 2, type := t }

/-- Concrete state for the FAT32 `write_fat_entry` evaluation: the FAT entry
of cluster 2 (sector 1, bytes 8..11) holds word 0xABCDEF12 on disk. -/
def stC1 : FatState :=
  { disk := fun sec o => if sec = 1 then
      (if o = 8 then 0x12 else if o = 9 then 0xEF else if o = 10 then 0xCD
       else if o = 11 then 0xAB else 0) else 0,
    devWriteOk := true, buffer := fun _ => 0, bufferAddr := 0, bufferDirty := false,
    info := mkInfo FatType.fat32 1 1, firstDataSector := 10, writeCount := 0,
    fatWriteLog := [], filePool := fun _ => emptyFile, fdPool := fun _ => emptyFd }

/-- Concrete state with a dirty buffer and a working device. -/
def stDirty : FatState :=
  { disk := fun _ _ => 0, devWriteOk := true, buffer := fun _ => 7, bufferAddr := 3,
    bufferDirty := true, info := mkInfo FatType.fat16 1 1, firstDataSector := 10,
    writeCount := 0, fatWriteLog := [], filePool := fun _ => emptyFile,
    fdPool := fun _ => emptyFd }

/-- Concrete state with a dirty buffer and a failing device. -/
def stDirtyBad : FatState :=
  { disk := fun _ _ => 0, devWriteOk := false, buffer := fun _ => 7, bufferAddr := 3,
    bufferDirty := true, info := mkInfo FatType.fat16 1 1, firstDataSector := 10,
    writeCount := 0, fatWriteLog := [], filePool := fun _ => emptyFile,
    fdPool := fun _ => emptyFd }

/-- Concrete state for the seek claims: descriptor 0 is open on a file of
size 100 with the cursor at 0. -/
def stC3 : FatState :=
  { disk := fun _ _ => 0, devWriteOk := true, buffer := fun _ => 0, bufferAddr := 0,
    bufferDirty := false, info := mkInfo FatType.fat16 1 1, firstDataSector := 10,
    writeCount := 0, fatWriteLog := [],
    filePool := poolSet (fun _ => emptyFile) 0
      { emptyFile with dir_entry := { emptyEntry with DIR_FileSize := 100 } },
    fdPool := poolSet (fun _ => emptyFd) 0 { offset := 0, flags := CFS_READ, inUse := true } }

/-- Concrete state for the read claims: descriptor 0 is open WRITE-only
(no READ bit) on an empty file (first cluster 0). -/
def stC4e : FatState :=
  { disk := fun _ _ => 0, devWriteOk := true, buffer := fun _ => 0, bufferAddr := 0,
    bufferDirty := false, info := mkInfo FatType.fat16 1 1, firstDataSector := 10,
    writeCount := 0, fatWriteLog := [],
    filePool := fun _ => emptyFile,
    fdPool := poolSet (fun _ => emptyFd) 0 { offset := 0, flags := CFS_WRITE, inUse := true } }

/-- Concrete state for the read claims: descriptor 0 is open WRITE-only on a
non-empty file (first cluster 3). -/
def stC4w : FatState :=
  { disk := fun _ _ => 0, devWriteOk := true, buffer := fun _ => 0, bufferAddr := 0,
    bufferDirty := false, info := mkInfo FatType.fat16 1 1, firstDataSector := 10,
    writeCount := 0, fatWriteLog := [],
    filePool := poolSet (fun _ => emptyFile) 0 { emptyFile with cluster := 3, nth_cluster := 3 },
    fdPool := poolSet (fun _ => emptyFd) 0 { offset := 0, flags := CFS_WRITE, inUse := true } }

/-- Concrete state for the readdir claim: FAT16, one sector per cluster,
FAT sector 1 holds value 3 in every entry, data region starts at sector 10. -/
def stC5 : FatState :=
  { disk := fun sec o => if sec = 1 then (if o % 2 = 0 then 3 else 0) else 0,
    devWriteOk := true, buffer := fun _ => 0, bufferAddr := 0, bufferDirty := false,
    info := mkInfo FatType.fat16 1 1, firstDataSector := 10, writeCount := 0,
    fatWriteLog := [], filePool := fun _ => emptyFile, fdPool := fun _ => emptyFd }

/-- Directory entry whose first cluster is 2 (for the readdir claim). -/
def deC5 : dir_entry := { emptyEntry with DIR_FstClusLO := 2 }

/-- Concrete state for the remove/chain claims: FAT16, FAT sector 1 holds
the chain 2 → 3 → EOC(0xFFF8); the file's directory entry lives in data
sector 100. -/
def stC6w : FatState :=
  { disk := fun sec o => if sec = 1 then
      (if o = 4 then 3 else if o = 6 then 0xF8 else if o = 7 then 0xFF else 0)
      else if sec = 100 then (if o < 32 then dirEntryByte deC5 o else 0) else 0,
    devWriteOk := true, buffer := fun _ => 0, bufferAddr := 0, bufferDirty := false,
    info := mkInfo FatType.fat16 1 1, firstDataSector := 10, writeCount := 0,
    fatWriteLog := [], filePool := fun _ => emptyFile, fdPool := fun _ => emptyFd }

/-- All-zero state (for the empty-file chain-reset witness). -/
def stZero : FatState :=
  { disk := fun _ _ => 0, devWriteOk := true, buffer := fun _ => 0, bufferAddr := 0,
    bufferDirty := false, info := mkInfo FatType.fat16 1 1, firstDataSector := 10,
    writeCount := 0, fatWriteLog := [], filePool := fun _ => emptyFile,
    fdPool := fun _ => emptyFd }

/-- Boot sector with 1024-byte sectors that the driver accepts: BytesPerSec
1024, SecPerClus 2, RsvdSecCnt 1, NumFATs 2, TotSec 20000, FATSz 1,
RootClus 2, valid signature. -/
def bs1024 : Nat → Nat := fun i =>
  if i = 12 then 4
  else if i = 13 then 2
  else if i = 14 then 1
  else if i = 16 then 2
  else if i = 19 then 0x20
  else if i = 20 then 0x4E
  else if i = 21 then 0xF8
  else if i = 22 then 1
  else if i = 44 then 2
  else if i = 510 then 0x55
  else if i = 511 then 0xAA
  else 0

/-- A fully standard boot sector the driver accepts: BytesPerSec 512,
SecPerClus 1, RsvdSecCnt 1, NumFATs 2, TotSec 5000, FATSz 1, RootClus 2. -/
def bsGood : Nat → Nat := fun i =>
  if i = 12 then 2
  else if i = 13 then 1
  else if i = 14 then 1
  else if i = 16 then 2
  else if i = 19 then 0x88
  else if i = 20 then 0x13
  else if i = 21 then 0xF8
  else if i = 22 then 1
  else if i = 44 then 2
  else if i = 510 then 0x55
  else if i = 511 then 0xAA
  else 0

/-- C7: canonicalizing the path tokens "foo.txt", "FOO.TXT" and "Foo.TxT"
succeeds (returns 0) and produces the identical 11-byte on-disk name
"FOO     TXT": lowercase ASCII is folded to uppercase and the single dot
jumps the write index to position 8, the start of the extension field. -/
theorem make_valid_name_canonicalizes :
    make_valid_name [102, 111, 111, 46, 116, 120, 116] 0 7 =
      (0, [70, 79, 79, 32, 32, 32, 32, 32, 84, 88, 84]) ∧
    make_valid_name [70, 79, 79, 46, 84, 88, 84] 0 7 =
      (0, [70, 79, 79, 32, 32, 32, 32, 32, 84, 88, 84]) ∧
    make_valid_name [70, 111, 111, 46, 84, 120, 84] 0 7 =
      (0, [70, 79, 79, 32, 32, 32, 32, 32, 84, 88, 84]) := by decide

/-- C1: evaluation at a failing input.  On FAT32, `write_fat_entry` stores
`(value >> 24) & 0xFF` verbatim into the high byte of the on-disk word
(the `0xF000 & sector_buffer[..]` summand is identically zero on a byte and
`& 0x0FFF` keeps all 8 bits), so writing value 0 into the entry of cluster 2
whose on-disk high byte is 0xAB yields byte 0x00 instead of the 0xA0 the
spec's high-nibble preservation requires.  The buffer is marked dirty. -/
theorem write_fat_entry_high_nibble_lost :
    (write_fat_entry stC1 2 0).buffer 11 = 0x00 ∧
    fat32_high_byte_spec 0xAB 0 = 0xA0 ∧
    ¬ (write_fat_entry stC1 2 0).buffer 11 = fat32_high_byte_spec 0xAB 0 ∧
    (write_fat_entry stC1 2 0).bufferDirty = true := by decide

/-- C8: `fat_flush (); fat_flush ()` performs exactly one device write when
the sector buffer starts dirty (the first call writes the buffer at its
address and clears the dirty flag, the second performs no device write), and
zero device writes when the buffer starts clean. -/
theorem fat_flush_twice_single_write (s : FatState) :
    (fat_flush (fat_flush s)).writeCount = s.writeCount + (if s.bufferDirty then 1 else 0) ∧
    (fat_flush s).writeCount = s.writeCount + (if s.bufferDirty then 1 else 0) ∧
    (fat_flush s).bufferDirty = false ∧
    (s.bufferDirty = true → s.devWriteOk = true →
      ∀ off, (fat_flush s).disk s.bufferAddr off = s.buffer off) := by
  by_cases h : s.bufferDirty <;>
    simp [fat_flush, diskio_write_block, h]
  intro hd off
  simp [hd]

/-- C8 witness: a concrete dirty state on which the double flush performs
exactly one device write and lands the buffer on disk. -/
theorem fat_flush_twice_single_write_witness :
    stDirty.bufferDirty = true ∧ stDirty.devWriteOk = true ∧
    (∀ off, (fat_flush stDirty).disk stDirty.bufferAddr off = stDirty.buffer off) :=
  ⟨rfl, rfl, (fat_flush_twice_single_write stDirty).2.2.2 rfl rfl⟩

/-- C9: `fat_flush` clears the dirty flag and returns normally even when the
device write fails: for every buffer state the dirty flag is 0 afterwards
(its codomain is just the new state, there is no error channel), an
immediately following flush performs no further device write, and on a
failing device the written data is silently dropped (the disk is unchanged)
and never retried. -/
theorem fat_flush_ignores_write_failure (s : FatState) :
    (fat_flush s).bufferDirty = false ∧
    (fat_flush (fat_flush s)).writeCount = (fat_flush s).writeCount ∧
    (s.devWriteOk = false → ∀ sec off, (fat_flush s).disk sec off = s.disk sec off) := by
  by_cases h : s.bufferDirty <;>
    simp [fat_flush, diskio_write_block, h]
  intro hw
  simp [hw]

/-- C9 witness: on a concrete dirty state with a failing device, the dirty
flag still clears and the disk is untouched. -/
theorem fat_flush_ignores_write_failure_witness :
    stDirtyBad.devWriteOk = false ∧ stDirtyBad.bufferDirty = true ∧
    (fat_flush stDirtyBad).bufferDirty = false ∧
    (∀ sec off, (fat_flush stDirtyBad).disk sec off = stDirtyBad.disk sec off) :=
  ⟨rfl, rfl, (fat_flush_ignores_write_failure stDirtyBad).1,
   (fat_flush_ignores_write_failure stDirtyBad).2.2 rfl⟩

/-- C4 counterexample: on a descriptor opened WRITE-only (no READ bit) whose
file is empty (first cluster 0), `cfs_read` returns 0, not −1: the
empty-file check precedes the flag check. -/
theorem cfs_read_empty_file_ignores_flags :
    (cfs_read 1 1 1 stC4e 0 10).2.1 = 0 ∧
    ¬ (cfs_read 1 1 1 stC4e 0 10).2.1 = -1 ∧
    (stC4e.fdPool 0).flags &&& CFS_READ = 0 ∧
    (stC4e.filePool 0).cluster = 0 := by decide

/-- C4 (amended): for every descriptor in the pool whose flags lack READ,
`cfs_read` returns −1 and transfers no bytes provided the file is non-empty
(first_cluster ≠ 0); when first_cluster = 0 it instead returns 0 and
transfers no bytes regardless of the flags, because the empty-file check
precedes the flag check.  In both cases the state is untouched. -/
theorem cfs_read_requires_read_flag (gfuel lfuel rfuel : Nat) (s : FatState) (fd : Int)
    (len : Nat) (h0 : 0 ≤ fd) (h1 : fd < (FAT_FD_POOL_SIZE : Int)) :
    ((s.filePool fd.toNat).cluster = 0 →
      cfs_read gfuel lfuel rfuel s fd len = (s, 0, [])) ∧
    ((s.filePool fd.toNat).cluster ≠ 0 → (s.fdPool fd.toNat).flags &&& CFS_READ = 0 →
      cfs_read gfuel lfuel rfuel s fd len = (s, -1, [])) := by
  constructor
  · intro hc
    simp [cfs_read, hc, not_lt.mpr h0, not_le.mpr h1]
  · intro hc hf
    simp [cfs_read, hc, hf, not_lt.mpr h0, not_le.mpr h1]

/-- C4 witness: concrete WRITE-only descriptor on a non-empty file; the read
is refused with −1 and no bytes move. -/
theorem cfs_read_requires_read_flag_witness :
    (0 : Int) ≤ 0 ∧ (0 : Int) < (FAT_FD_POOL_SIZE : Int) ∧
    (stC4w.filePool (0 : Int).toNat).cluster ≠ 0 ∧
    (stC4w.fdPool (0 : Int).toNat).flags &&& CFS_READ = 0 ∧
    cfs_read 1 1 1 stC4w 0 5 = (stC4w, -1, []) :=
  ⟨le_refl 0, by decide, by decide, by decide,
   (cfs_read_requires_read_flag 1 1 1 stC4w 0 5 (by decide) (by decide)).2
     (by decide) (by decide)⟩

/-- C3 counterexample: on a file of size 100 with the cursor at 0,
`cfs_seek(fd, -5, SET)` returns 99 (the signed cursor is compared as
unsigned, so a negative cursor is clamped to file_size − 1), while clamping
−5 into [0, 99] as the claim states would give 0. -/
theorem cfs_seek_negative_set_counterexample :
    (cfs_seek stC3 0 (-5) CFS_SEEK_SET).2 = 99 ∧
    seek_clamp_spec 100 (-5) = 0 ∧
    ¬ (cfs_seek stC3 0 (-5) CFS_SEEK_SET).2 = seek_clamp_spec 100 (-5) := by decide

/-- C5: evaluation at a failing input.  `cfs_readdir` computes the cluster
index as `dir_off / sec_per_clus` instead of the documented
`dir_off / (sec_per_clus * 512)`: with cursor 1 and one sector per cluster
it walks `find_nth_cluster` 32 FAT links (landing on cluster 3 in this
state, whose FAT is constantly 3) and loads sector 11, while the documented
computation stays at cluster index 0 and loads the directory's own first
sector 10. -/
theorem cfs_readdir_cluster_index_bug :
    (cfs_readdir stC5 deC5 1).1.bufferAddr = 11 ∧
    (cfs_readdir stC5 deC5 1).2.1 = 0 ∧
    readdir_cluster_index_spec 1 stC5.info.BPB_SecPerClus = 0 ∧
    u32 (cluster_to_sector stC5 (firstClusterOf deC5) +
      (1 * 32) / stC5.info.BPB_BytesPerSec) = 10 ∧
    ¬ (11 : Nat) = 10 := by decide

/-- C2 counterexample: `fat_mount_device` accepts (returns 0 for) a boot
sector whose BPB_BytesPerSec is 1024, so an accepted mount need not satisfy
bytes_per_sec = 512. -/
theorem mount_accepts_1024_byte_sectors :
    (fat_mount_device bs1024).1 = 0 ∧
    (parse_bootsector bs1024).1.BPB_BytesPerSec = 1024 ∧
    ¬ (parse_bootsector bs1024).1.BPB_BytesPerSec = 512 := by decide

/-- The `is_a_power_of_2` loop starting from test value `2^i` finds exactly
the powers `2^j` with `i ≤ j < 32`. -/
theorem pow2Loop_zero_iff (k : Nat) : ∀ i : Nat, i + k = 32 →
    ∀ v, (pow2Loop k (2 ^ i % 4294967296) v = 0 ↔ ∃ j, i ≤ j ∧ j < 32 ∧ v = 2 ^ j) := by
  induction k with
  | zero =>
    intro i hi v
    constructor
    · intro h
      simp [pow2Loop] at h
    · rintro ⟨j, hj1, hj2, _⟩
      omega
  | succ k ih =>
    intro i hi v
    have hlt : i < 32 := by omega
    have hpow : (2 : Nat) ^ i < 4294967296 := by
      calc (2 : Nat) ^ i < 2 ^ 32 := Nat.pow_lt_pow_right (by norm_num) hlt
        _ = 4294967296 := by norm_num
    have h2i : 2 ^ i % 4294967296 = 2 ^ i := Nat.mod_eq_of_lt hpow
    by_cases hv : 2 ^ i % 4294967296 = v
    · have hres : pow2Loop (k + 1) (2 ^ i % 4294967296) v = 0 := by
        simp [pow2Loop, hv]
      rw [hres]
      constructor
      · intro _
        exact ⟨i, le_refl i, hlt, by rw [← hv, h2i]⟩
      · intro _
        rfl
    · have hstep : pow2Loop (k + 1) (2 ^ i % 4294967296) v =
          pow2Loop k (u32 ((2 ^ i % 4294967296) * 2)) v := by
        simp [pow2Loop, hv]
      have harg : u32 ((2 ^ i % 4294967296) * 2) = 2 ^ (i + 1) % 4294967296 := by
        rw [h2i]
        unfold u32
        rw [← pow_succ]
      rw [hstep, harg, ih (i + 1) (by omega) v]
      constructor
      · rintro ⟨j, hj1, hj2, hj3⟩
        exact ⟨j, by omega, hj2, hj3⟩
      · rintro ⟨j, hj1, hj2, hj3⟩
        refine ⟨j, ?_, hj2, hj3⟩
        rcases Nat.eq_or_lt_of_le hj1 with he | hlt2
        · exact absurd (by rw [h2i, he, ← hj3]) hv
        · omega

/-- The driver's power-of-two test accepts exactly 0 and the `2^j`
with `j < 32`. -/
theorem is_a_power_of_2_zero_iff (v : Nat) :
    is_a_power_of_2 v = 0 ↔ (v = 0 ∨ ∃ j, j < 32 ∧ v = 2 ^ j) := by
  unfold is_a_power_of_2
  by_cases h0 : v = 0
  · simp [h0]
  · rw [if_neg h0]
    have h := pow2Loop_zero_iff 32 0 (by norm_num) v
    norm_num at h
    rw [h]
    simp [h0]

/-- A zero return of `parse_bootsector` means all four BPB checks of the
claim passed (in the code's form). -/
theorem parse_ret_flags (b : Nat → Nat) (h : (parse_bootsector b).2 = 0) :
    is_a_power_of_2 (parse_bootsector b).1.BPB_BytesPerSec = 0 ∧
    is_a_power_of_2 (parse_bootsector b).1.BPB_SecPerClus = 0 ∧
    (parse_bootsector b).1.BPB_NumFATs ≤ 2 ∧
    (parse_bootsector b).1.BPB_BytesPerSec * (parse_bootsector b).1.BPB_SecPerClus ≤ 32768 := by
  simp only [parse_bootsector] at h ⊢
  split_ifs at h <;> push_neg at * <;> omega

/-- An accepted mount means a zero parse result and a FAT16/FAT32
classification. -/
theorem mount_zero_parts (b : Nat → Nat) (h : (fat_mount_device b).1 = 0) :
    (parse_bootsector b).2 = 0 ∧
    (determine_fat_type (parse_bootsector b).1 = FatType.fat16 ∨
     determine_fat_type (parse_bootsector b).1 = FatType.fat32) := by
  simp only [fat_mount_device] at h
  split_ifs at h with h1 h2
  push_neg at h1 h2
  refine ⟨h1, ?_⟩
  by_cases hc : determine_fat_type (parse_bootsector b).1 = FatType.fat16
  · exact Or.inl hc
  · exact Or.inr (h2 hc)

/-- A FAT16/FAT32 classification forces a nonzero sectors-per-cluster. -/
theorem determine_spc_nonzero (info : FAT_Info)
    (h : determine_fat_type info = FatType.fat16 ∨ determine_fat_type info = FatType.fat32) :
    info.BPB_SecPerClus ≠ 0 := by
  intro hz
  unfold determine_fat_type at h
  rw [hz] at h
  simp [Nat.div_zero] at h

/-- C2 (amended): for every device whose boot sector `fat_mount_device`
accepts (return 0), the parsed BPB satisfies: bytes_per_sec is zero or a
power of two (the code only runs its `is_a_power_of_2` check, which treats 0
as a power of two, and never compares against 512), sec_per_clus is a power
of two, num_fats ≤ 2, and bytes_per_sec * sec_per_clus ≤ 32768; a boot
sector violating any of these checks is rejected with return value 1. -/
theorem mount_bpb_invariants (b : Nat → Nat) :
    ((fat_mount_device b).1 = 0 →
      ((parse_bootsector b).1.BPB_BytesPerSec = 0 ∨
        ∃ j, j < 32 ∧ (parse_bootsector b).1.BPB_BytesPerSec = 2 ^ j) ∧
      (∃ j, j < 32 ∧ (parse_bootsector b).1.BPB_SecPerClus = 2 ^ j) ∧
      (parse_bootsector b).1.BPB_NumFATs ≤ 2 ∧
      (parse_bootsector b).1.BPB_BytesPerSec * (parse_bootsector b).1.BPB_SecPerClus ≤ 32768) ∧
    ((¬ ((parse_bootsector b).1.BPB_BytesPerSec = 0 ∨
          ∃ j, j < 32 ∧ (parse_bootsector b).1.BPB_BytesPerSec = 2 ^ j) ∨
      ¬ ((parse_bootsector b).1.BPB_SecPerClus = 0 ∨
          ∃ j, j < 32 ∧ (parse_bootsector b).1.BPB_SecPerClus = 2 ^ j) ∨
      ¬ (parse_bootsector b).1.BPB_NumFATs ≤ 2 ∨
      ¬ (parse_bootsector b).1.BPB_BytesPerSec * (parse_bootsector b).1.BPB_SecPerClus ≤ 32768) →
      (fat_mount_device b).1 = 1) := by
  constructor
  · intro h
    obtain ⟨hp, ht⟩ := mount_zero_parts b h
    obtain ⟨h1, h2, h3, h4⟩ := parse_ret_flags b hp
    have hspc0 : (parse_bootsector b).1.BPB_SecPerClus ≠ 0 := determine_spc_nonzero _ ht
    refine ⟨(is_a_power_of_2_zero_iff _).mp h1, ?_, h3, h4⟩
    rcases (is_a_power_of_2_zero_iff _).mp h2 with hz | hj
    · exact absurd hz hspc0
    · exact hj
  · intro hviol
    have hret : (parse_bootsector b).2 ≠ 0 := by
      intro hp
      obtain ⟨h1, h2, h3, h4⟩ := parse_ret_flags b hp
      rcases hviol with hv | hv | hv | hv
      · exact hv ((is_a_power_of_2_zero_iff _).mp h1)
      · exact hv ((is_a_power_of_2_zero_iff _).mp h2)
      · exact hv h3
      · exact hv h4
    simp [fat_mount_device, hret]

/-- C2 witness: a standard 512-byte-sector boot sector is accepted and the
derived invariants hold on it. -/
theorem mount_bpb_invariants_witness :
    (fat_mount_device bsGood).1 = 0 ∧
    (((parse_bootsector bsGood).1.BPB_BytesPerSec = 0 ∨
       ∃ j, j < 32 ∧ (parse_bootsector bsGood).1.BPB_BytesPerSec = 2 ^ j) ∧
     (∃ j, j < 32 ∧ (parse_bootsector bsGood).1.BPB_SecPerClus = 2 ^ j) ∧
     (parse_bootsector bsGood).1.BPB_NumFATs ≤ 2 ∧
     (parse_bootsector bsGood).1.BPB_BytesPerSec * (parse_bootsector bsGood).1.BPB_SecPerClus ≤ 32768) :=
  ⟨by decide, (mount_bpb_invariants bsGood).1 (by decide)⟩

/-- C3 (amended): for every valid fd, `cfs_seek` computes the target cursor
(SET assigns, CUR adds, END computes (file_size − 1) + offset) and then
clamps it by comparing it as an unsigned 32-bit value against the file size:
a target in [0, file_size) is kept, every other target — larger ones and
negative ones alike — becomes file_size − 1, and when file_size = 0 the
result is 0; the clamped value is stored in the descriptor and returned. -/
theorem cfs_seek_clamp_behavior (s : FatState) (fd offset whence : Int) (fsize : Nat) (o0 x : Int)
    (h0 : 0 ≤ fd) (h1 : fd < (FAT_FD_POOL_SIZE : Int))
    (hfsize : fsize = (s.filePool fd.toNat).dir_entry.DIR_FileSize)
    (ho0 : o0 = (s.fdPool fd.toNat).offset)
    (hx : x = seek_target_spec fsize o0 offset whence)
    (hw : whence = CFS_SEEK_SET ∨ whence = CFS_SEEK_CUR ∨ whence = CFS_SEEK_END)
    (hfs : fsize < 2147483648)
    (hr0 : -2147483648 ≤ o0) (hr1 : o0 < 2147483648)
    (hr2 : -2147483648 ≤ offset) (hr3 : offset < 2147483648)
    (hr4 : -2147483648 ≤ x) (hr5 : x < 2147483648) :
    (cfs_seek s fd offset whence).2 =
      (if fsize = 0 then 0
       else if 0 ≤ x ∧ x < (fsize : Int) then x else (fsize : Int) - 1) ∧
    ((cfs_seek s fd offset whence).1.fdPool fd.toNat).offset = (cfs_seek s fd offset whence).2 := by
  have h5 : (FAT_FD_POOL_SIZE : Int) = 5 := by norm_num [FAT_FD_POOL_SIZE]
  have hif : ¬ (fd < 0 ∨ (FAT_FD_POOL_SIZE : Int) ≤ fd) := by omega
  have humod : u32 (s.filePool fd.toNat).dir_entry.DIR_FileSize = fsize := by
    rw [← hfsize]
    exact Nat.mod_eq_of_lt (by omega)
  constructor
  · subst ho0
    rcases hw with hww | hww | hww <;> subst hww
    · simp only [seek_target_spec, CFS_SEEK_SET, CFS_SEEK_CUR, CFS_SEEK_END] at hx
      norm_num at hx
      simp only [cfs_seek, if_neg hif, humod, CFS_SEEK_SET, CFS_SEEK_CUR, CFS_SEEK_END]
      norm_num
      simp only [wrap32i, toInt32, toUint32, u32]
      split_ifs <;> omega
    · simp only [seek_target_spec, CFS_SEEK_SET, CFS_SEEK_CUR, CFS_SEEK_END] at hx
      norm_num at hx
      simp only [cfs_seek, if_neg hif, humod, CFS_SEEK_SET, CFS_SEEK_CUR, CFS_SEEK_END]
      norm_num
      simp only [wrap32i, toInt32, toUint32, u32]
      split_ifs <;> omega
    · simp only [seek_target_spec, CFS_SEEK_SET, CFS_SEEK_CUR, CFS_SEEK_END] at hx
      norm_num at hx
      simp only [cfs_seek, if_neg hif, humod, CFS_SEEK_SET, CFS_SEEK_CUR, CFS_SEEK_END]
      norm_num
      simp only [wrap32i, toInt32, toUint32, u32]
      split_ifs <;> omega
  · simp only [cfs_seek, if_neg hif]
    simp [poolSet]

/-- C3 witness: on the concrete size-100 file, seeking to 7 with SET from
cursor 0 keeps the in-range target 7 and stores it. -/
theorem cfs_seek_clamp_behavior_witness :
    (0 : Int) ≤ 0 ∧ ((0 : Int) = CFS_SEEK_SET ∨ (0 : Int) = CFS_SEEK_CUR ∨ (0 : Int) = CFS_SEEK_END) ∧
    (cfs_seek stC3 0 7 0).2 =
      (if (100 : Nat) = 0 then 0
       else if 0 ≤ (7 : Int) ∧ (7 : Int) < ((100 : Nat) : Int) then 7 else ((100 : Nat) : Int) - 1) :=
  ⟨le_refl 0, Or.inl rfl,
   (cfs_seek_clamp_behavior stC3 0 7 0 100 0 7 (le_refl 0) (by decide) (by decide) (by decide)
     (by decide) (Or.inl rfl) (by norm_num) (by norm_num) (by norm_num) (by norm_num)
     (by norm_num) (by norm_num) (by norm_num)).1⟩

theorem land_f000_mod_256 (x : Nat) : (0xF000 &&& x) % 256 = 0 := by
  have h : (0xF000 &&& x) % 256 = (0xF000 &&& x) % 2 ^ 8 := by norm_num
  rw [h]
  apply Nat.eq_of_testBit_eq
  intro i
  rw [Nat.testBit_mod_two_pow]
  simp only [Nat.testBit_and, Nat.zero_testBit]
  by_cases hi : i < 8
  · have hb : Nat.testBit 61440 i = false := by interval_cases i <;> decide
    simp [hb]
  · simp [hi]

theorem setByte_same (f : Nat → Nat) (i v : Nat) : setByte f i v i = v := by
  simp [setByte]

theorem setByte_other (f : Nat → Nat) (i v j : Nat) (h : j ≠ i) : setByte f i v j = f j := by
  simp [setByte, h]

theorem fat_flush_misc (s : FatState) :
    (fat_flush s).info = s.info ∧ (fat_flush s).bufferAddr = s.bufferAddr ∧
    (fat_flush s).buffer = s.buffer ∧ (fat_flush s).devWriteOk = s.devWriteOk ∧
    (fat_flush s).fatWriteLog = s.fatWriteLog ∧ (fat_flush s).bufferDirty = false ∧
    (fat_flush s).filePool = s.filePool ∧ (fat_flush s).fdPool = s.fdPool ∧
    (fat_flush s).firstDataSector = s.firstDataSector := by
  by_cases h : s.bufferDirty <;> simp [fat_flush, diskio_write_block, h]

theorem fat_flush_disk_byteAt (s : FatState) (h : Flushable s) (sec off : Nat) :
    (fat_flush s).disk sec off = byteAt s sec off := by
  obtain ⟨hdev, hcons⟩ := h
  by_cases hd : s.bufferDirty
  · simp only [fat_flush, diskio_write_block, hd, if_pos, hdev, byteAt, if_true]
    by_cases hs : sec = s.bufferAddr
    · simp [hs]
    · rw [if_neg hs, if_neg (fun hh => hs hh.symm)]
  · simp only [fat_flush, hd, if_false, byteAt, Bool.false_eq_true]
    by_cases hs : s.bufferAddr = sec
    · rw [if_pos hs, ← hs, ← hcons (by simp [hd]) off]
    · rw [if_neg hs]

theorem fat_flush_byteAt (s : FatState) (h : Flushable s) (sec off : Nat) :
    byteAt (fat_flush s) sec off = byteAt s sec off := by
  have hm := fat_flush_misc s
  by_cases hs : s.bufferAddr = sec
  · simp [byteAt, hm.2.1, hm.2.2.1, hs]
  · simp only [byteAt, hm.2.1, if_neg hs]
    rw [fat_flush_disk_byteAt s h sec off]
    simp [byteAt, if_neg hs]

theorem fat_flush_flushable (s : FatState) (h : Flushable s) : Flushable (fat_flush s) := by
  obtain ⟨hdev, hcons⟩ := h
  constructor
  · rw [(fat_flush_misc s).2.2.2.1]
    exact hdev
  · intro _ off
    rw [(fat_flush_misc s).2.1, (fat_flush_misc s).2.2.1]
    rw [fat_flush_disk_byteAt s ⟨hdev, hcons⟩ s.bufferAddr off]
    simp [byteAt]

theorem fat_read_block_misc (s : FatState) (a : Nat) :
    (fat_read_block s a).1.info = s.info ∧ (fat_read_block s a).1.devWriteOk = s.devWriteOk ∧
    (fat_read_block s a).1.fatWriteLog = s.fatWriteLog ∧
    (fat_read_block s a).1.filePool = s.filePool ∧ (fat_read_block s a).1.fdPool = s.fdPool ∧
    (fat_read_block s a).1.bufferAddr = a ∧
    (fat_read_block s a).1.firstDataSector = s.firstDataSector := by
  by_cases h : s.bufferAddr = a ∧ a ≠ 0
  · simp [fat_read_block, h, h.1]
  · simp [fat_read_block, h, fat_flush_misc s]

theorem fat_read_block_buffer (s : FatState) (a : Nat) (h : Flushable s) (off : Nat) :
    (fat_read_block s a).1.buffer off = byteAt s a off := by
  by_cases hc : s.bufferAddr = a ∧ a ≠ 0
  · simp [fat_read_block, hc, byteAt, hc.1]
  · simp only [fat_read_block, hc, if_false]
    exact fat_flush_disk_byteAt s h a off

theorem fat_read_block_byteAt (s : FatState) (a : Nat) (h : Flushable s) (sec off : Nat) :
    byteAt (fat_read_block s a).1 sec off = byteAt s sec off := by
  simp only [fat_read_block]
  by_cases hc : s.bufferAddr = a ∧ a ≠ 0
  · rw [if_pos hc]
  · rw [if_neg hc]
    by_cases hs : a = sec
    · subst hs
      simp only [byteAt, if_pos rfl]
      exact fat_flush_disk_byteAt s h a off
    · simp only [byteAt, if_neg hs]
      exact fat_flush_disk_byteAt s h sec off

theorem fat_read_block_flushable (s : FatState) (a : Nat) (h : Flushable s) :
    Flushable (fat_read_block s a).1 := by
  simp only [fat_read_block]
  by_cases hc : s.bufferAddr = a ∧ a ≠ 0
  · rw [if_pos hc]
    exact h
  · rw [if_neg hc]
    refine ⟨by simp [(fat_flush_misc s).2.2.2.1, h.1], ?_⟩
    intro _ off
    rfl

theorem calc_fat_block_eq (info : FAT_Info) (c : Nat) (hg : GoodGeom info)
    (hc : c < 268435456) :
    calc_fat_block info c =
      (info.BPB_RsvdSecCnt + c * entSize info.type / 512, c * entSize info.type % 512) := by
  obtain ⟨hbps, ht, hr⟩ := hg
  rcases ht with ht | ht <;>
    simp only [calc_fat_block, entSize, ht, hbps, u32, Prod.mk.injEq] <;>
    constructor <;> omega

theorem entry_within_sector (info : FAT_Info) (c : Nat) (hg : GoodGeom info)
    (_hc : c < 268435456) :
    entOff info c + entSize info.type ≤ 512 := by
  obtain ⟨hbps, ht, hr⟩ := hg
  rcases ht with ht | ht <;>
    simp only [entOff, calc_fat_block, entSize, ht, hbps, u32] <;> omega

theorem entry_disjoint (info : FAT_Info) (hg : GoodGeom info) (x c : Nat)
    (hx : x < 268435456) (hc : c < 268435456) (hne : x ≠ c) (k : Nat)
    (hk : k < entSize info.type) :
    outsideEntry info x (entSec info c) (entOff info c + k) := by
  obtain ⟨hbps, ht, hr⟩ := hg
  rcases ht with ht | ht <;>
    simp only [outsideEntry, entSec, entOff, calc_fat_block, entSize, ht, hbps, u32] at hk ⊢ <;>
    omega

theorem write_fat_entry_misc (s : FatState) (c v : Nat) :
    (write_fat_entry s c v).info = s.info ∧ (write_fat_entry s c v).devWriteOk = s.devWriteOk ∧
    (write_fat_entry s c v).filePool = s.filePool ∧ (write_fat_entry s c v).fdPool = s.fdPool ∧
    (write_fat_entry s c v).bufferDirty = true ∧
    (write_fat_entry s c v).bufferAddr = (calc_fat_block s.info c).1 ∧
    (write_fat_entry s c v).fatWriteLog = s.fatWriteLog ++ [(c, v)] := by
  obtain ⟨h1, h2, h3, h4, h5, h6, h7⟩ := fat_read_block_misc s (calc_fat_block s.info c).1
  cases htype : s.info.type <;> simp [write_fat_entry, htype, h1, h2, h3, h4, h5, h6]

theorem write_fat_entry_flushable (s : FatState) (c v : Nat) (h : Flushable s) :
    Flushable (write_fat_entry s c v) := by
  refine ⟨?_, ?_⟩
  · rw [(write_fat_entry_misc s c v).2.1]
    exact h.1
  · intro hdirty
    rw [(write_fat_entry_misc s c v).2.2.2.2.1] at hdirty
    simp at hdirty

theorem write_fat_entry_byteAt_frame (s : FatState) (c v : Nat) (h : Flushable s)
    (sec off : Nat) (hout : outsideEntry s.info c sec off) :
    byteAt (write_fat_entry s c v) sec off = byteAt s sec off := by
  have hb := fat_read_block_buffer s (calc_fat_block s.info c).1 h
  have hB := fat_read_block_byteAt s (calc_fat_block s.info c).1 h
  have haddr := (fat_read_block_misc s (calc_fat_block s.info c).1).2.2.2.2.2.1
  simp only [outsideEntry, entSec, entOff] at hout
  cases htype : s.info.type
  case fat12 =>
    simp only [write_fat_entry, htype, byteAt]
    rw [haddr]
    by_cases hsec : (calc_fat_block s.info c).1 = sec
    · rw [if_pos hsec, hb off, hsec]
      rfl
    · rw [if_neg hsec]
      have := hB sec off
      simp only [byteAt, haddr, if_neg hsec] at this
      exact this
  case fat16 =>
    simp only [entSize, htype] at hout
    simp only [write_fat_entry, htype, byteAt]
    rw [haddr]
    by_cases hsec : (calc_fat_block s.info c).1 = sec
    · rw [if_pos hsec]
      rcases hout with hout | hout
      · exact absurd hsec.symm hout
      · rw [setByte_other _ _ _ _ (by omega), setByte_other _ _ _ _ (by omega), hb off, hsec]
        rfl
    · rw [if_neg hsec]
      have := hB sec off
      simp only [byteAt, haddr, if_neg hsec] at this
      exact this
  case fat32 =>
    simp only [entSize, htype] at hout
    simp only [write_fat_entry, htype, byteAt]
    rw [haddr]
    by_cases hsec : (calc_fat_block s.info c).1 = sec
    · rw [if_pos hsec]
      rcases hout with hout | hout
      · exact absurd hsec.symm hout
      · rw [setByte_other _ _ _ _ (by omega), setByte_other _ _ _ _ (by omega),
          setByte_other _ _ _ _ (by omega), setByte_other _ _ _ _ (by omega), hb off, hsec]
        rfl
    · rw [if_neg hsec]
      have := hB sec off
      simp only [byteAt, haddr, if_neg hsec] at this
      exact this

theorem read_fat_entry_fst (s : FatState) (c : Nat) :
    (read_fat_entry s c).1 = (fat_read_block s (calc_fat_block s.info c).1).1 := by
  cases htype : s.info.type <;> simp [read_fat_entry, htype]

theorem read_fat_entry_val (s : FatState) (c : Nat) (h : Flushable s) :
    (read_fat_entry s c).2 = entryVal s c := by
  have hb := fat_read_block_buffer s (calc_fat_block s.info c).1 h
  cases htype : s.info.type <;> simp [read_fat_entry, entryVal, htype, hb]

theorem entryVal_congr (s s' : FatState) (c : Nat) (hinfo : s'.info = s.info)
    (hb : ∀ k, k < entSize s.info.type → byteAt s' (entSec s.info c) (entOff s.info c + k) =
      byteAt s (entSec s.info c) (entOff s.info c + k)) :
    entryVal s' c = entryVal s c := by
  cases htype : s.info.type
  case fat12 =>
    simp only [entryVal, hinfo, htype]
  case fat16 =>
    rw [htype] at hb
    simp only [entSize] at hb
    have h0 := hb 0 (by norm_num)
    have h1 := hb 1 (by norm_num)
    simp only [entSec, entOff, Nat.add_zero] at h0 h1
    simp only [entryVal, hinfo, htype]
    simp only [h0, h1]
  case fat32 =>
    rw [htype] at hb
    simp only [entSize] at hb
    have h0 := hb 0 (by norm_num)
    have h1 := hb 1 (by norm_num)
    have h2 := hb 2 (by norm_num)
    have h3 := hb 3 (by norm_num)
    simp only [entSec, entOff, Nat.add_zero] at h0 h1 h2 h3
    simp only [entryVal, hinfo, htype]
    simp only [h0, h1, h2, h3]

theorem write_fat_entry_entryVal_zero (s : FatState) (c : Nat) (_h : Flushable s)
    (hg : GoodGeom s.info) :
    entryVal (write_fat_entry s c 0) c = 0 := by
  have haddr := (write_fat_entry_misc s c 0).2.2.2.2.2.1
  have hinfo := (write_fat_entry_misc s c 0).1
  cases htype : s.info.type
  case fat12 =>
    rcases hg.2.1 with hg2 | hg2 <;> rw [htype] at hg2 <;> exact absurd hg2 (by decide)
  case fat16 =>
    simp only [entryVal, hinfo, htype, byteAt, haddr, if_pos rfl]
    simp only [write_fat_entry, htype]
    simp [setByte]
  case fat32 =>
    simp only [entryVal, hinfo, htype, byteAt, haddr, if_pos rfl]
    simp only [write_fat_entry, htype]
    simp [setByte, land_f000_mod_256]

theorem remove_dir_entry_misc (s : FatState) (d o : Nat) :
    (remove_dir_entry s d o).info = s.info ∧ (remove_dir_entry s d o).devWriteOk = s.devWriteOk ∧
    (remove_dir_entry s d o).fatWriteLog = s.fatWriteLog ∧
    (remove_dir_entry s d o).bufferDirty = true := by
  obtain ⟨h1, h2, h3, h4, h5, h6, h7⟩ := fat_read_block_misc s d
  simp [remove_dir_entry, h1, h2, h3]

theorem remove_dir_entry_flushable (s : FatState) (d o : Nat) (h : Flushable s) :
    Flushable (remove_dir_entry s d o) := by
  refine ⟨?_, ?_⟩
  · rw [(remove_dir_entry_misc s d o).2.1]
    exact h.1
  · intro hd
    rw [(remove_dir_entry_misc s d o).2.2.2] at hd
    simp at hd

theorem remove_dir_entry_byteAt_frame (s : FatState) (d o : Nat) (h : Flushable s)
    (sec off : Nat) (hsec : sec ≠ d) :
    byteAt (remove_dir_entry s d o) sec off = byteAt s sec off := by
  have hB := fat_read_block_byteAt s d h
  have haddr := (fat_read_block_misc s d).2.2.2.2.2.1
  have hne : ¬ d = sec := fun hh => hsec hh.symm
  simp only [remove_dir_entry, byteAt]
  rw [haddr, if_neg hne]
  have := hB sec off
  simp only [byteAt, haddr, if_neg hne] at this
  exact this

theorem Links_congr (s s' : FatState) : ∀ (cs : List Nat) (m : Nat),
    (∀ y ∈ cs, entryVal s' y = entryVal s y) → Links s cs m → Links s' cs m := by
  intro cs
  induction cs with
  | nil =>
    intro m _ _
    trivial
  | cons c rest ih =>
    intro m hv h
    cases rest with
    | nil =>
      simp only [Links] at h ⊢
      rw [hv c (by simp)]
      exact h
    | cons c2 rest2 =>
      simp only [Links] at h ⊢
      exact ⟨by rw [hv c (by simp)]; exact h.1,
        ih m (fun y hy => hv y (by simp [hy])) h.2⟩

theorem resetChainLoop_succ_true (fuel : Nat) (s : FatState) (cl nx : Nat)
    (hc : is_EOC s.info.type cl = false ∧ 2 ≤ cl) :
    resetChainLoop (fuel + 1) s cl nx =
      resetChainLoop fuel (read_fat_entry (write_fat_entry s cl 0) nx).1 nx
        (read_fat_entry (write_fat_entry s cl 0) nx).2 := by
  simp only [resetChainLoop]
  rw [if_pos hc]

theorem resetChainLoop_succ_false (fuel : Nat) (s : FatState) (cl nx : Nat)
    (hc : ¬ (is_EOC s.info.type cl = false ∧ 2 ≤ cl)) :
    resetChainLoop (fuel + 1) s cl nx = write_fat_entry s cl 0 := by
  simp only [resetChainLoop]
  rw [if_neg hc]

theorem resetStep (s : FatState) (c next : Nat) (h : Flushable s) (hg : GoodGeom s.info) :
    Flushable (read_fat_entry (write_fat_entry s c 0) next).1 ∧
    (read_fat_entry (write_fat_entry s c 0) next).1.info = s.info ∧
    (∀ sec off, outsideEntry s.info c sec off →
      byteAt (read_fat_entry (write_fat_entry s c 0) next).1 sec off = byteAt s sec off) ∧
    entryVal (read_fat_entry (write_fat_entry s c 0) next).1 c = 0 ∧
    (read_fat_entry (write_fat_entry s c 0) next).1.fatWriteLog = s.fatWriteLog ++ [(c, 0)] ∧
    (read_fat_entry (write_fat_entry s c 0) next).2 = entryVal (write_fat_entry s c 0) next := by
  have hfl1 : Flushable (write_fat_entry s c 0) := write_fat_entry_flushable s c 0 h
  have hi1 : (write_fat_entry s c 0).info = s.info := (write_fat_entry_misc s c 0).1
  have hlog1 : (write_fat_entry s c 0).fatWriteLog = s.fatWriteLog ++ [(c, 0)] :=
    (write_fat_entry_misc s c 0).2.2.2.2.2.2
  have hfst := read_fat_entry_fst (write_fat_entry s c 0) next
  have hmisc := fat_read_block_misc (write_fat_entry s c 0)
    (calc_fat_block (write_fat_entry s c 0).info next).1
  have hbyte : ∀ sec off, byteAt (read_fat_entry (write_fat_entry s c 0) next).1 sec off =
      byteAt (write_fat_entry s c 0) sec off := by
    intro sec off
    rw [hfst]
    exact fat_read_block_byteAt _ _ hfl1 sec off
  have hi2 : (read_fat_entry (write_fat_entry s c 0) next).1.info = s.info := by
    rw [hfst, hmisc.1, hi1]
  refine ⟨?_, hi2, ?_, ?_, ?_, ?_⟩
  · rw [hfst]
    exact fat_read_block_flushable _ _ hfl1
  · intro sec off hout
    rw [hbyte sec off]
    exact write_fat_entry_byteAt_frame s c 0 h sec off hout
  · have hcongr := entryVal_congr (write_fat_entry s c 0)
      (read_fat_entry (write_fat_entry s c 0) next).1 c (by rw [hi2, hi1])
      (fun k _ => hbyte _ _)
    rw [hcongr]
    exact write_fat_entry_entryVal_zero s c h hg
  · rw [hfst, hmisc.2.2.1, hlog1]
  · exact read_fat_entry_val _ next hfl1

theorem resetChainLoop_spec (m : Nat) : ∀ (rest : List Nat) (fuel : Nat) (s : FatState)
    (c next : Nat),
    Flushable s → GoodGeom s.info →
    okChainCluster s.info.type c →
    (∀ y ∈ rest, okChainCluster s.info.type y) →
    (is_EOC s.info.type m = true ∨ m < 2) →
    m < 268435456 →
    (c :: (rest ++ [m])).Nodup →
    Links s (c :: rest) m →
    next = rest.headD m →
    rest.length + 2 ≤ fuel →
    (∀ y ∈ c :: rest, entryVal (resetChainLoop fuel s c next) y = 0) ∧
    (∀ sec off, (∀ y ∈ c :: (rest ++ [m]), outsideEntry s.info y sec off) →
      byteAt (resetChainLoop fuel s c next) sec off = byteAt s sec off) ∧
    Flushable (resetChainLoop fuel s c next) ∧
    (resetChainLoop fuel s c next).info = s.info ∧
    (resetChainLoop fuel s c next).fatWriteLog =
      s.fatWriteLog ++ (c :: rest).map (fun y => (y, 0)) ++ [(m, 0)] := by
  intro rest
  induction rest with
  | nil =>
    intro fuel s c next hfl hg hokc _ hterm hmb hnd hlinks hnext hfuel
    obtain ⟨f, rfl⟩ : ∃ f, fuel = f + 1 + 1 := ⟨fuel - 2, by omega⟩
    simp only [List.headD] at hnext
    rw [hnext]
    rw [resetChainLoop_succ_true (f + 1) s c m ⟨hokc.2.1, hokc.1⟩]
    obtain ⟨hfl2, hi2, hframe2, hzero2, hlog2, _⟩ := resetStep s c m hfl hg
    have hnec : m ≠ c := by
      have hcm : c ∉ ([m] : List Nat) := by
        have := (List.nodup_cons.mp hnd).1
        simpa using this
      simp at hcm
      exact fun hh => hcm hh.symm
    have hmcond : ¬ (is_EOC (read_fat_entry (write_fat_entry s c 0) m).1.info.type m = false ∧
        2 ≤ m) := by
      rw [hi2]
      rintro ⟨ha, hb⟩
      rcases hterm with ht | ht
      · rw [ht] at ha
        cases ha
      · omega
    rw [resetChainLoop_succ_false f _ m _ hmcond]
    have hflF : Flushable (write_fat_entry (read_fat_entry (write_fat_entry s c 0) m).1 m 0) :=
      write_fat_entry_flushable _ m 0 hfl2
    have hiF : (write_fat_entry (read_fat_entry (write_fat_entry s c 0) m).1 m 0).info = s.info := by
      rw [(write_fat_entry_misc _ m 0).1, hi2]
    refine ⟨?_, ?_, hflF, hiF, ?_⟩
    · intro y hy
      have hyc : y = c := by simpa using hy
      rw [hyc]
      have hcongr := entryVal_congr (read_fat_entry (write_fat_entry s c 0) m).1
        (write_fat_entry (read_fat_entry (write_fat_entry s c 0) m).1 m 0) c
        (write_fat_entry_misc _ m 0).1 ?_
      · rw [hcongr]
        exact hzero2
      · intro k hk
        apply write_fat_entry_byteAt_frame _ m 0 hfl2
        rw [hi2]
        rw [hi2] at hk
        exact entry_disjoint s.info hg m c hmb hokc.2.2 hnec k hk
    · intro sec off houts
      have h1 := write_fat_entry_byteAt_frame (read_fat_entry (write_fat_entry s c 0) m).1 m 0
        hfl2 sec off (by rw [hi2]; exact houts m (by simp))
      rw [h1]
      exact hframe2 sec off (houts c (by simp))
    · rw [(write_fat_entry_misc _ m 0).2.2.2.2.2.2, hlog2]
      simp
  | cons c2 rest2 ih =>
    intro fuel s c next hfl hg hokc hokr hterm hmb hnd hlinks hnext hfuel
    obtain ⟨f, rfl⟩ : ∃ f, fuel = f + 1 := ⟨fuel - 1, by omega⟩
    simp only [List.headD] at hnext
    rw [hnext]
    rw [resetChainLoop_succ_true f s c c2 ⟨hokc.2.1, hokc.1⟩]
    obtain ⟨hfl2, hi2, hframe2, hzero2, hlog2, hval2⟩ := resetStep s c c2 hfl hg
    have hnotmem : c ∉ (c2 :: rest2) ++ [m] := (List.nodup_cons.mp hnd).1
    have hnd2 : (c2 :: (rest2 ++ [m])).Nodup := by
      have := (List.nodup_cons.mp hnd).2
      simpa using this
    have hl2 : Links s (c2 :: rest2) m := by
      cases rest2 <;> simp only [Links] at hlinks ⊢
      · exact hlinks.2
      · exact hlinks.2
    have hnec2 : c ≠ c2 := by
      intro hh
      exact hnotmem (by simp [hh])
    have hvnext : (read_fat_entry (write_fat_entry s c 0) c2).2 = rest2.headD m := by
      rw [hval2]
      have hcongr := entryVal_congr s (write_fat_entry s c 0) c2 (write_fat_entry_misc s c 0).1 ?_
      · rw [hcongr]
        cases rest2 with
        | nil =>
          simp only [Links] at hl2
          simpa using hl2
        | cons c3 rest3 =>
          simp only [Links] at hl2
          simpa using hl2.1
      · intro k hk
        apply write_fat_entry_byteAt_frame s c 0 hfl
        exact entry_disjoint s.info hg c c2 hokc.2.2 (hokr c2 (by simp)).2.2 hnec2 k hk
    have hvals : ∀ y ∈ c2 :: rest2, entryVal (read_fat_entry (write_fat_entry s c 0) c2).1 y =
        entryVal s y := by
      intro y hy
      have hney : c ≠ y := by
        intro hh
        exact hnotmem (List.mem_append.mpr (Or.inl (hh ▸ hy)))
      apply entryVal_congr
      · exact hi2
      · intro k hk
        apply hframe2
        exact entry_disjoint s.info hg c y hokc.2.2 (hokr y hy).2.2 hney k hk
    have ihr := ih f (read_fat_entry (write_fat_entry s c 0) c2).1 c2 _
      hfl2 (by rw [hi2]; exact hg) (by rw [hi2]; exact hokr c2 (by simp))
      (by rw [hi2]; exact fun y hy => hokr y (by simp [hy]))
      (by rw [hi2]; exact hterm) hmb hnd2
      (Links_congr s _ (c2 :: rest2) m hvals hl2)
      hvnext (by simp at hfuel ⊢; omega)
    obtain ⟨ihz, ihframe, ihfl, ihinfo, ihlog⟩ := ihr
    have hiF : (resetChainLoop f (read_fat_entry (write_fat_entry s c 0) c2).1 c2
        (read_fat_entry (write_fat_entry s c 0) c2).2).info = s.info := by
      rw [ihinfo, hi2]
    refine ⟨?_, ?_, ihfl, hiF, ?_⟩
    · intro y hy
      rcases List.mem_cons.mp hy with hyc | hyr
      · rw [hyc]
        have hcongr := entryVal_congr (read_fat_entry (write_fat_entry s c 0) c2).1
          (resetChainLoop f (read_fat_entry (write_fat_entry s c 0) c2).1 c2
            (read_fat_entry (write_fat_entry s c 0) c2).2) c
          (by rw [ihinfo]) ?_
        · rw [hcongr]
          exact hzero2
        · intro k hk
          rw [hi2] at hk
          apply ihframe
          intro z hz
          rw [hi2]
          have hzb : z < 268435456 := by
            rcases List.mem_cons.mp hz with hh | hh
            · exact hh ▸ (hokr c2 (by simp)).2.2
            · rcases List.mem_append.mp hh with hh2 | hh2
              · exact (hokr z (by simp [hh2])).2.2
              · have : z = m := by simpa using hh2
                exact this ▸ hmb
          have hznec : z ≠ c := by
            intro hh
            rw [hh] at hz
            apply hnotmem
            rcases List.mem_cons.mp hz with hh2 | hh2
            · simp [hh2]
            · simp at hh2 ⊢
              tauto
          exact entry_disjoint s.info hg z c hzb hokc.2.2 hznec k hk
      · exact ihz y hyr
    · intro sec off houts
      have h1 : byteAt (resetChainLoop f (read_fat_entry (write_fat_entry s c 0) c2).1 c2
          (read_fat_entry (write_fat_entry s c 0) c2).2) sec off =
          byteAt (read_fat_entry (write_fat_entry s c 0) c2).1 sec off := by
        apply ihframe
        intro z hz
        rw [hi2]
        apply houts z
        simp at hz ⊢
        tauto
      rw [h1]
      exact hframe2 sec off (houts c (by simp))
    · rw [ihlog, hlog2]
      simp

theorem reset_cluster_chain_spec (fuel : Nat) (s : FatState) (de : dir_entry)
    (c0 : Nat) (rest : List Nat) (m : Nat)
    (hfl : Flushable s) (hg : GoodGeom s.info)
    (hfirst : firstClusterOf de = c0)
    (hok : ∀ y ∈ c0 :: rest, okChainCluster s.info.type y)
    (hterm : is_EOC s.info.type m = true ∨ m < 2)
    (hmb : m < 268435456)
    (hnd : (c0 :: (rest ++ [m])).Nodup)
    (hlinks : Links s (c0 :: rest) m)
    (hfuel : rest.length + 2 ≤ fuel) :
    (∀ y ∈ c0 :: rest, entryVal (reset_cluster_chain fuel s de) y = 0) ∧
    (∀ sec off, (∀ y ∈ c0 :: (rest ++ [m]), outsideEntry s.info y sec off) →
      byteAt (reset_cluster_chain fuel s de) sec off = byteAt s sec off) ∧
    Flushable (reset_cluster_chain fuel s de) ∧
    (reset_cluster_chain fuel s de).info = s.info ∧
    (reset_cluster_chain fuel s de).fatWriteLog =
      s.fatWriteLog ++ (c0 :: rest).map (fun y => (y, 0)) ++ [(m, 0)] := by
  have hfst := read_fat_entry_fst s c0
  have hfl1 : Flushable (read_fat_entry s c0).1 := by
    rw [hfst]
    exact fat_read_block_flushable _ _ hfl
  have hi1 : (read_fat_entry s c0).1.info = s.info := by
    rw [hfst]
    exact (fat_read_block_misc _ _).1
  have hlog1 : (read_fat_entry s c0).1.fatWriteLog = s.fatWriteLog := by
    rw [hfst]
    exact (fat_read_block_misc _ _).2.2.1
  have hbyte1 : ∀ sec off, byteAt (read_fat_entry s c0).1 sec off = byteAt s sec off := by
    intro sec off
    rw [hfst]
    exact fat_read_block_byteAt _ _ hfl sec off
  have hval1 : (read_fat_entry s c0).2 = rest.headD m := by
    rw [read_fat_entry_val s c0 hfl]
    cases rest with
    | nil =>
      simp only [Links] at hlinks
      simpa using hlinks
    | cons c2 rest2 =>
      simp only [Links] at hlinks
      simpa using hlinks.1
  have hvals : ∀ y ∈ c0 :: rest, entryVal (read_fat_entry s c0).1 y = entryVal s y := by
    intro y _
    exact entryVal_congr s _ y hi1 (fun k _ => hbyte1 _ _)
  have hspec := resetChainLoop_spec m rest fuel (read_fat_entry s c0).1 c0
    ((read_fat_entry s c0).2) hfl1 (by rw [hi1]; exact hg)
    (by rw [hi1]; exact hok c0 (by simp))
    (by rw [hi1]; exact fun y hy => hok y (by simp [hy]))
    (by rw [hi1]; exact hterm) hmb hnd
    (Links_congr s _ (c0 :: rest) m hvals hlinks) hval1 hfuel
  obtain ⟨hz, hframe, hflF, hinfoF, hlogF⟩ := hspec
  have hunfold : reset_cluster_chain fuel s de =
      resetChainLoop fuel (read_fat_entry s c0).1 c0 (read_fat_entry s c0).2 := by
    simp only [reset_cluster_chain, hfirst]
  rw [hunfold]
  refine ⟨hz, ?_, hflF, by rw [hinfoF, hi1], by rw [hlogF, hlog1]⟩
  intro sec off houts
  rw [hframe sec off (by rw [hi1]; exact houts)]
  exact hbyte1 sec off

/-- C6: for every file that `cfs_remove` successfully removes (return 0),
every FAT entry that previously belonged to the file's cluster chain — each
cluster from the first up to and including the one whose entry held the EOC
marker — afterwards reads as 0, and the chain walk (`reset_cluster_chain`)
itself does not modify the sector holding the file's directory entry.  The
chain is described by its cluster list `c0 :: rest` and terminator `m`; the
hypotheses state that it is a well-formed chain (linked in the FAT, valid
in-range pairwise-distinct cluster numbers, an EOC terminator) on a mounted
FAT16/FAT32 volume, and that no FAT entry of the chain (nor the stray final
write at index `m`) lives in the directory-entry sector `dsec`. -/
theorem cfs_remove_frees_cluster_chain (fuel : Nat) (s : FatState) (de : dir_entry)
    (dsec doff : Nat) (c0 : Nat) (rest : List Nat) (m : Nat)
    (hfl : Flushable s) (hg : GoodGeom s.info)
    (hfile : is_file_entry de = 1)
    (hfirst : firstClusterOf de = c0)
    (hok : ∀ y ∈ c0 :: rest, okChainCluster s.info.type y)
    (hm : is_EOC s.info.type m = true) (hmb : m < 268435456)
    (hnd : (c0 :: (rest ++ [m])).Nodup)
    (hlinks : Links s (c0 :: rest) m)
    (hfuel : rest.length + 2 ≤ fuel)
    (hdsec : ∀ y ∈ c0 :: (rest ++ [m]), entSec s.info y ≠ dsec) :
    (cfs_remove_resolved fuel s de dsec doff).2 = 0 ∧
    (∀ y ∈ c0 :: rest,
      (read_fat_entry (cfs_remove_resolved fuel s de dsec doff).1 y).2 = 0) ∧
    (∀ b, byteAt (reset_cluster_chain fuel s de) dsec b = byteAt s dsec b) := by
  obtain ⟨hz, hframe, hflR, hinfoR, _⟩ :=
    reset_cluster_chain_spec fuel s de c0 rest m hfl hg hfirst hok (Or.inl hm) hmb hnd
      hlinks hfuel
  have hres : cfs_remove_resolved fuel s de dsec doff =
      (fat_flush (remove_dir_entry (reset_cluster_chain fuel s de) dsec doff), 0) := by
    simp only [cfs_remove_resolved, hfile, if_pos]
  have hfl2 : Flushable (remove_dir_entry (reset_cluster_chain fuel s de) dsec doff) :=
    remove_dir_entry_flushable _ dsec doff hflR
  have hfl3 : Flushable (fat_flush (remove_dir_entry (reset_cluster_chain fuel s de) dsec doff)) :=
    fat_flush_flushable _ hfl2
  have hi2 : (remove_dir_entry (reset_cluster_chain fuel s de) dsec doff).info =
      (reset_cluster_chain fuel s de).info := (remove_dir_entry_misc _ dsec doff).1
  refine ⟨by rw [hres], ?_, ?_⟩
  · intro y hy
    rw [hres]
    rw [read_fat_entry_val _ y hfl3]
    have e3 := entryVal_congr (remove_dir_entry (reset_cluster_chain fuel s de) dsec doff)
      (fat_flush (remove_dir_entry (reset_cluster_chain fuel s de) dsec doff)) y
      (fat_flush_misc _).1 (fun k _ => fat_flush_byteAt _ hfl2 _ _)
    have e2 := entryVal_congr (reset_cluster_chain fuel s de)
      (remove_dir_entry (reset_cluster_chain fuel s de) dsec doff) y hi2 ?_
    · rw [e3, e2]
      exact hz y hy
    · intro k _
      apply remove_dir_entry_byteAt_frame _ dsec doff hflR
      rw [hinfoR]
      exact hdsec y (by simp at hy ⊢; tauto)
  · intro b
    apply hframe dsec b
    intro y hy
    exact Or.inl (Ne.symm (hdsec y hy))

/-- C10: after its zeroing loop, `reset_cluster_chain` always issues one
additional `write_fat_entry` whose cluster argument is the value that
terminated the walk rather than a cluster of the file: for a file with
first_cluster = 0 the walk terminates immediately on 0 and the extra write
lands on reserved FAT entry 0 (take `cs = []`, `m = 0`), and for a a
non-empty chain the extra write's FAT index is the EOC marker value itself,
which is not a member of the chain. -/
theorem reset_cluster_chain_stray_write (fuel : Nat) (s : FatState) (de : dir_entry)
    (cs : List Nat) (m : Nat)
    (hfl : Flushable s) (hg : GoodGeom s.info)
    (hstart : (cs ++ [m]).headD 0 = firstClusterOf de)
    (hok : ∀ y ∈ cs, okChainCluster s.info.type y)
    (hterm : is_EOC s.info.type m = true ∨ m < 2) (hmb : m < 268435456)
    (hnd : (cs ++ [m]).Nodup)
    (hlinks : Links s cs m)
    (hfuel : cs.length + 2 ≤ fuel) :
    (reset_cluster_chain fuel s de).fatWriteLog =
      s.fatWriteLog ++ cs.map (fun y => (y, 0)) ++ [(m, 0)] ∧
    m ∉ cs := by
  cases cs with
  | nil =>
    have hfirst : firstClusterOf de = m := by simpa using hstart.symm
    simp only [List.length_nil] at hfuel
    obtain ⟨f, rfl⟩ : ∃ f, fuel = f + 1 := ⟨fuel - 1, by omega⟩
    have hfst := read_fat_entry_fst s m
    have hi1 : (read_fat_entry s m).1.info = s.info := by
      rw [hfst]
      exact (fat_read_block_misc _ _).1
    have hlog1 : (read_fat_entry s m).1.fatWriteLog = s.fatWriteLog := by
      rw [hfst]
      exact (fat_read_block_misc _ _).2.2.1
    have hcond : ¬ (is_EOC (read_fat_entry s m).1.info.type m = false ∧ 2 ≤ m) := by
      rw [hi1]
      rintro ⟨ha, hb⟩
      rcases hterm with ht | ht
      · rw [ht] at ha
        cases ha
      · omega
    have hunfold : reset_cluster_chain (f + 1) s de =
        write_fat_entry (read_fat_entry s m).1 m 0 := by
      simp only [reset_cluster_chain, hfirst]
      exact resetChainLoop_succ_false f _ m _ hcond
    rw [hunfold]
    refine ⟨?_, by simp⟩
    rw [(write_fat_entry_misc _ m 0).2.2.2.2.2.2, hlog1]
    simp
  | cons c0 rest =>
    have hfirst : firstClusterOf de = c0 := by simpa using hstart.symm
    have hnd' : (c0 :: (rest ++ [m])).Nodup := by simpa using hnd
    simp only [List.length_cons] at hfuel
    obtain ⟨_, _, _, _, hlog⟩ :=
      reset_cluster_chain_spec fuel s de c0 rest m hfl hg hfirst hok
        hterm hmb hnd' hlinks (by omega)
    refine ⟨hlog, ?_⟩
    intro hmem
    have hdisj := (List.nodup_append.mp hnd).2.2
    exact hdisj hmem (by simp)

/-- C6 witness: on the concrete FAT16 state whose FAT links 2 → 3 → 0xFFF8,
removing the resolved file zeroes both chain entries, returns 0, and the
chain walk leaves the directory-entry sector 100 untouched. -/
theorem cfs_remove_frees_cluster_chain_witness :
    is_file_entry deC5 = 1 ∧ entryVal stC6w 2 = 3 ∧ entryVal stC6w 3 = 65528 ∧
    ((cfs_remove_resolved 5 stC6w deC5 100 0).2 = 0 ∧
     (∀ y ∈ [2, 3], (read_fat_entry (cfs_remove_resolved 5 stC6w deC5 100 0).1 y).2 = 0) ∧
     (∀ b, byteAt (reset_cluster_chain 5 stC6w deC5) 100 b = byteAt stC6w 100 b)) :=
  ⟨by decide, by decide, by decide,
   cfs_remove_frees_cluster_chain 5 stC6w deC5 100 0 2 [3] 65528
     ⟨rfl, fun _ _ => rfl⟩ (by decide) (by decide) (by decide) (by decide)
     (by decide) (by decide) (by decide)
     ⟨(by decide : entryVal stC6w 2 = 3), (by decide : entryVal stC6w 3 = 65528)⟩
     (by decide) (by decide)⟩

/-- C10 witness: on the all-zero state with an empty file (first cluster 0),
the chain walk performs exactly the one stray write of 0 into reserved FAT
entry 0. -/
theorem reset_cluster_chain_stray_write_witness :
    firstClusterOf emptyEntry = 0 ∧
    ((reset_cluster_chain 2 stZero emptyEntry).fatWriteLog =
      stZero.fatWriteLog ++ List.map (fun y => (y, 0)) ([] : List Nat) ++ [(0, 0)] ∧
     (0 : Nat) ∉ ([] : List Nat)) :=
  ⟨by decide, reset_cluster_chain_stray_write 2 stZero emptyEntry [] 0
    ⟨rfl, fun _ _ => rfl⟩ (by decide) (by decide) (by decide) (by decide)
    (by decide) (by decide) trivial (by decide)⟩
